import Mathlib

/-!
# Verification of the PSPS probability-shadow pathfinding core

Shallow embedding of the collision-prediction and reactive-replanning engine
from `src/core/shadow.py`, `src/core/drone.py`, `src/core/metrics.py` and
`src/simulation/grid.py`.

Modelling conventions:

* Machine floats become exact rationals (`ℚ`); 3-vectors become `ℚ × ℚ × ℚ`.
* `np.linalg.norm` is kept abstract as a parameter `nrm : Vec3 → ℚ` (the
  Euclidean norm is irrational in general; every theorem is proved for an
  arbitrary `nrm`, and concrete witnesses instantiate it with the L1 norm,
  which agrees with the Euclidean norm on axis-aligned vectors).
* Calls into `np.random` (shadow sampling, speed perturbation) are modelled
  by explicit oracle parameters: a draw counter (`seed`) is threaded through
  the state exactly where the source draws fresh randomness, and the sampler
  `gen` is an arbitrary function of that counter.
* Python's builtin `max(iterable)` raises `ValueError` on an empty iterable;
  this is modelled by `pyMax : List ℚ → Option ℚ` returning `none`, and the
  failure is propagated through the tick (`Option`-valued updates).
* `calculate_collision_risk` raises a numpy broadcast `ValueError` when its
  first shadow is nonempty and its second is empty (`pos1[i] - np.array([])`
  with shape `(0,)`); the embedding returns `Option ℚ`, with `none` for that
  error, and propagates it through the risk generator of the grid.
-/

namespace PSPS

/-- 3-component vector of exact rationals (models a numpy length-3 float array). -/
abbrev Vec3 : Type := ℚ × ℚ × ℚ

/-- A probability shadow: list of (sample position, weight) pairs,
as built by `ProbabilityShadow.generate_shadow_points` (`shadow.py`). -/
abbrev Shadow : Type := List (Vec3 × ℚ)

/-- Abstraction of `np.linalg.norm` applied to a 3-vector. -/
abbrev Nrm : Type := Vec3 → ℚ

/-- Python's builtin `max` over a sequence: `none` models the `ValueError`
raised on an empty sequence. -/
def pyMax : List ℚ → Option ℚ
  | [] => none
  | x :: xs => some (xs.foldl max x)

/-- `foldl max` dominates its initial accumulator. -/
theorem le_foldl_max (x : ℚ) (l : List ℚ) : x ≤ l.foldl max x := by
  induction l generalizing x with
  | nil => exact le_refl x
  | cons y ys ih => exact le_trans (le_max_left x y) (ih (max x y))

/-- `foldl max` dominates every member of the list. -/
theorem mem_le_foldl_max {y : ℚ} {l : List ℚ} (h : y ∈ l) (x : ℚ) :
    y ≤ l.foldl max x := by
  induction l generalizing x with
  | nil => cases h
  | cons z zs ih =>
    rcases List.mem_cons.mp h with rfl | hz
    · exact le_trans (le_max_right x y) (le_foldl_max _ _)
    · exact ih hz (max x z)

/-- `foldl max` is either the initial accumulator or a member of the list. -/
theorem foldl_max_eq_or_mem (x : ℚ) (l : List ℚ) :
    l.foldl max x = x ∨ l.foldl max x ∈ l := by
  induction l generalizing x with
  | nil => exact Or.inl rfl
  | cons y ys ih =>
    rcases ih (max x y) with h | h
    · rcases max_cases x y with ⟨hm, _⟩ | ⟨hm, _⟩
      · exact Or.inl (by rw [List.foldl_cons, h, hm])
      · exact Or.inr (by rw [List.foldl_cons, h, hm]; exact List.mem_cons_self _ _)
    · exact Or.inr (List.mem_cons_of_mem _ h)

/-- `foldl max` is bounded by any common upper bound. -/
theorem foldl_max_le {x c : ℚ} {l : List ℚ} (hx : x ≤ c) (h : ∀ y ∈ l, y ≤ c) :
    l.foldl max x ≤ c := by
  rcases foldl_max_eq_or_mem x l with he | he
  · rw [he]; exact hx
  · exact h _ he

theorem pyMax_mem {l : List ℚ} {m : ℚ} (h : pyMax l = some m) : m ∈ l := by
  cases l with
  | nil => cases h
  | cons x xs =>
    simp only [pyMax, Option.some.injEq] at h
    rcases foldl_max_eq_or_mem x xs with he | he
    · rw [← h, he]; exact List.mem_cons_self _ _
    · rw [← h]; exact List.mem_cons_of_mem _ he

theorem le_pyMax {l : List ℚ} {m : ℚ} (h : pyMax l = some m) :
    ∀ y ∈ l, y ≤ m := by
  cases l with
  | nil => cases h
  | cons x xs =>
    simp only [pyMax, Option.some.injEq] at h
    intro y hy
    rcases List.mem_cons.mp hy with rfl | hy
    · exact h ▸ le_foldl_max _ _
    · exact h ▸ mem_le_foldl_max hy x

theorem pyMax_isSome {l : List ℚ} (h : l ≠ []) : ∃ m, pyMax l = some m := by
  cases l with
  | nil => exact absurd rfl h
  | cons x xs => exact ⟨xs.foldl max x, rfl⟩

/-- Running maximum starting at `0.0`, the accumulation pattern of
`calculate_collision_risk` (`shadow.py` line 46: `max_prob = 0.0`). -/
def listMax0 (l : List ℚ) : ℚ := l.foldl max 0

theorem listMax0_nonneg (l : List ℚ) : 0 ≤ listMax0 l := le_foldl_max 0 l

theorem le_listMax0 {y : ℚ} {l : List ℚ} (h : y ∈ l) : y ≤ listMax0 l :=
  mem_le_foldl_max h 0

theorem listMax0_eq_zero_or_mem (l : List ℚ) :
    listMax0 l = 0 ∨ listMax0 l ∈ l := foldl_max_eq_or_mem 0 l

theorem listMax0_le {c : ℚ} {l : List ℚ} (hc : 0 ≤ c) (h : ∀ y ∈ l, y ≤ c) :
    listMax0 l ≤ c := foldl_max_le hc h

theorem listMax0_nil : listMax0 [] = 0 := rfl

theorem listMax0_append (l₁ l₂ : List ℚ) :
    listMax0 (l₁ ++ l₂) = l₂.foldl max (listMax0 l₁) := by
  simp [listMax0, List.foldl_append]

/-! ## Risk Estimator (`shadow.py`, `calculate_collision_risk`, lines 43-60)

The source computes, for each sample `i` of `shadow1`, the distances to all
samples of `shadow2`, masks those strictly below `safe_distance`, and if the
mask is nonempty folds `max(max_prob, np.max(collision_probs))` into a running
maximum that starts at `0.0`.  When `shadow1` is nonempty and `shadow2` is
empty, `pos2 = np.array([])` has shape `(0,)`, so the first iteration's
subtraction `pos1[i] - pos2` (shape `(3,)` against `(0,)`) raises a numpy
broadcast `ValueError`; when `shadow1` is empty the loop body never runs, and
when both shadows are nonempty every broadcast succeeds (`pos2` has shape
`(n, 3)`).  The distance function `dst` abstracts
`np.linalg.norm(pos1[i] - pos2)`; the grid instantiates it with
`fun a b => nrm (a - b)`. -/

/-- The running-maximum loop of `calculate_collision_risk` (`shadow.py` lines
46-59), on the shapes for which every broadcast succeeds. -/
def riskLoop (dst : Vec3 → Vec3 → ℚ) (shadow1 shadow2 : Shadow)
    (safe_distance : ℚ) : ℚ :=
  shadow1.foldl (fun max_prob p =>
    match (shadow2.filter (fun q => dst p.1 q.1 < safe_distance)).map
        (fun q => p.2 * q.2 * (1 - dst p.1 q.1 / safe_distance)) with
    | [] => max_prob
    | v :: vs => max max_prob (vs.foldl max v)) 0

/-- Embedding of `ProbabilityShadow.calculate_collision_risk`: the numpy
broadcast `ValueError` raised when `shadow1` is nonempty and `shadow2` is
empty is modelled as `none`; on every other pair of shapes the loop runs to
completion. -/
def calculate_collision_risk (dst : Vec3 → Vec3 → ℚ) (shadow1 shadow2 : Shadow)
    (safe_distance : ℚ) : Option ℚ :=
  if shadow1 ≠ [] ∧ shadow2 = [] then none
  else some (riskLoop dst shadow1 shadow2 safe_distance)

/-- The flattened list of pairwise risk contributions: one value
`weightA * weightB * (1 - distance / safe_distance)` for every cross pair of
samples whose distance is strictly below `safe_distance`. -/
def crossPairRisks (dst : Vec3 → Vec3 → ℚ) (shadow1 shadow2 : Shadow)
    (safe_distance : ℚ) : List ℚ :=
  shadow1.flatMap (fun p =>
    (shadow2.filter (fun q => dst p.1 q.1 < safe_distance)).map
      (fun q => p.2 * q.2 * (1 - dst p.1 q.1 / safe_distance)))

theorem foldl_max_max (a b : ℚ) (l : List ℚ) :
    l.foldl max (max a b) = max a (l.foldl max b) := by
  induction l generalizing b with
  | nil => rfl
  | cons c cs ih => simp only [List.foldl_cons, max_assoc, ih]

/-- The running-maximum loop of the source equals the maximum (floored at 0)
over the flattened cross-pair contribution list. -/
theorem riskLoop_eq (dst : Vec3 → Vec3 → ℚ) (s1 s2 : Shadow)
    (safe : ℚ) :
    riskLoop dst s1 s2 safe = listMax0 (crossPairRisks dst s1 s2 safe) := by
  suffices h : ∀ (l : List (Vec3 × ℚ)) (a : ℚ),
      l.foldl (fun max_prob p =>
        match (s2.filter (fun q => dst p.1 q.1 < safe)).map
            (fun q => p.2 * q.2 * (1 - dst p.1 q.1 / safe)) with
        | [] => max_prob
        | v :: vs => max max_prob (vs.foldl max v)) a =
      (l.flatMap (fun p =>
        (s2.filter (fun q => dst p.1 q.1 < safe)).map
          (fun q => p.2 * q.2 * (1 - dst p.1 q.1 / safe)))).foldl max a by
    exact h s1 0
  intro l
  induction l with
  | nil => intro a; rfl
  | cons p ps ih =>
    intro a
    simp only [List.foldl_cons, List.flatMap_cons, List.foldl_append]
    rcases he : (s2.filter (fun q => dst p.1 q.1 < safe)).map
        (fun q => p.2 * q.2 * (1 - dst p.1 q.1 / safe)) with _ | ⟨v, vs⟩
    · rw [he]
      simpa using ih a
    · rw [he]
      simp only [List.foldl_cons, ih, foldl_max_max]

/-- The loop value is always nonnegative. -/
theorem riskLoop_nonneg (dst : Vec3 → Vec3 → ℚ) (s1 s2 : Shadow) (safe : ℚ) :
    0 ≤ riskLoop dst s1 s2 safe := by
  rw [riskLoop_eq]
  exact listMax0_nonneg _

/-- The risk computation raises exactly when the first shadow is nonempty
and the second is empty. -/
theorem calculate_collision_risk_none_iff (dst : Vec3 → Vec3 → ℚ)
    (s1 s2 : Shadow) (safe : ℚ) :
    calculate_collision_risk dst s1 s2 safe = none ↔ s1 ≠ [] ∧ s2 = [] := by
  unfold calculate_collision_risk
  by_cases hc : s1 ≠ [] ∧ s2 = []
  · rw [if_pos hc]
    simp [hc]
  · rw [if_neg hc]
    simp [hc]

/-- Whatever value the risk computation returns is the value of its loop. -/
theorem calculate_collision_risk_some_val {dst : Vec3 → Vec3 → ℚ}
    {s1 s2 : Shadow} {safe r : ℚ}
    (h : calculate_collision_risk dst s1 s2 safe = some r) :
    r = riskLoop dst s1 s2 safe := by
  unfold calculate_collision_risk at h
  by_cases hc : s1 ≠ [] ∧ s2 = []
  · rw [if_pos hc] at h
    cases h
  · rw [if_neg hc] at h
    rw [Option.some.injEq] at h
    exact h.symm

/-- Against a nonempty second shadow the risk computation always completes. -/
theorem calculate_collision_risk_some_of_ne (dst : Vec3 → Vec3 → ℚ)
    (s1 s2 : Shadow) (safe : ℚ) (h2 : s2 ≠ []) :
    calculate_collision_risk dst s1 s2 safe =
      some (riskLoop dst s1 s2 safe) := by
  unfold calculate_collision_risk
  rw [if_neg (fun hc => h2 hc.2)]

/-- Membership characterization of the cross-pair contribution list. -/
theorem mem_crossPairRisks {dst : Vec3 → Vec3 → ℚ} {s1 s2 : Shadow} {safe v : ℚ} :
    v ∈ crossPairRisks dst s1 s2 safe ↔
      ∃ p ∈ s1, ∃ q ∈ s2, dst p.1 q.1 < safe ∧
        v = p.2 * q.2 * (1 - dst p.1 q.1 / safe) := by
  simp only [crossPairRisks, List.mem_flatMap, List.mem_map, List.mem_filter,
    decide_eq_true_eq]
  constructor
  · rintro ⟨p, hp, q, ⟨hq, hlt⟩, rfl⟩
    exact ⟨p, hp, q, hq, hlt, rfl⟩
  · rintro ⟨p, hp, q, hq, hlt, rfl⟩
    exact ⟨p, hp, q, ⟨hq, hlt⟩, rfl⟩

/-- Each cross-pair contribution is at most 1 when weights lie in `[0,1]`,
distances are nonnegative and the safe distance is positive. -/
theorem crossPairRisks_le_one {dst : Vec3 → Vec3 → ℚ} {s1 s2 : Shadow} {safe v : ℚ}
    (h1 : ∀ p ∈ s1, 0 ≤ p.2 ∧ p.2 ≤ 1) (h2 : ∀ q ∈ s2, 0 ≤ q.2 ∧ q.2 ≤ 1)
    (hsafe : 0 < safe) (hd : ∀ a b, 0 ≤ dst a b)
    (hv : v ∈ crossPairRisks dst s1 s2 safe) : v ≤ 1 := by
  rcases mem_crossPairRisks.mp hv with ⟨p, hp, q, hq, _, rfl⟩
  rcases h1 p hp with ⟨hp0, hp1⟩
  rcases h2 q hq with ⟨hq0, hq1⟩
  have hdq : 0 ≤ dst p.1 q.1 / safe := div_nonneg (hd _ _) hsafe.le
  nlinarith [mul_nonneg hp0 hq0]

/-- C2 (amended): under the claim's hypotheses (weights in `[0,1]`, positive
safe distance, nonnegative distances) `calculate_collision_risk` raises the
numpy broadcast `ValueError` exactly when the first shadow is nonempty and
the second is empty; in every other case it returns a scalar `r` in `[0,1]`
that upper-bounds every cross-pair contribution within the safe distance, is
either `0` or one of those contributions, and is exactly `0` when no cross
pair lies strictly within the safe distance. -/
theorem collision_risk_bounds_and_max (dst : Vec3 → Vec3 → ℚ) (s1 s2 : Shadow)
    (safe : ℚ)
    (h1 : ∀ p ∈ s1, 0 ≤ p.2 ∧ p.2 ≤ 1) (h2 : ∀ q ∈ s2, 0 ≤ q.2 ∧ q.2 ≤ 1)
    (hsafe : 0 < safe) (hd : ∀ a b, 0 ≤ dst a b) :
    (calculate_collision_risk dst s1 s2 safe = none ↔ s1 ≠ [] ∧ s2 = []) ∧
    ∀ r, calculate_collision_risk dst s1 s2 safe = some r →
      0 ≤ r ∧ r ≤ 1 ∧
      (∀ v ∈ crossPairRisks dst s1 s2 safe, v ≤ r) ∧
      (r = 0 ∨ r ∈ crossPairRisks dst s1 s2 safe) ∧
      (crossPairRisks dst s1 s2 safe = [] → r = 0) := by
  refine ⟨calculate_collision_risk_none_iff dst s1 s2 safe, ?_⟩
  intro r h
  rw [calculate_collision_risk_some_val h, riskLoop_eq]
  refine ⟨listMax0_nonneg _, ?_, fun v hv => le_listMax0 hv,
    listMax0_eq_zero_or_mem _, fun he => by rw [he]; rfl⟩
  exact listMax0_le zero_le_one
    (fun v hv => crossPairRisks_le_one h1 h2 hsafe hd hv)

/-- If every member of `l` is a member of `l'`, the floored maxima compare. -/
theorem listMax0_le_listMax0 {l l' : List ℚ} (h : ∀ v ∈ l, v ∈ l') :
    listMax0 l ≤ listMax0 l' := by
  rcases listMax0_eq_zero_or_mem l with he | he
  · rw [he]; exact listMax0_nonneg l'
  · exact le_listMax0 (h _ he)

/-- C7 (amended): with a symmetric sample distance function, collision risk
is symmetric exactly when the two shadows are both empty or both nonempty;
when exactly one shadow is empty, one orientation raises the numpy broadcast
`ValueError` while the reversed orientation returns `0`. -/
theorem collision_risk_symm (dst : Vec3 → Vec3 → ℚ) (s1 s2 : Shadow) (safe : ℚ)
    (hsym : ∀ a b, dst a b = dst b a) :
    (calculate_collision_risk dst s1 s2 safe =
      calculate_collision_risk dst s2 s1 safe) ↔ (s1 = [] ↔ s2 = []) := by
  have key : ∀ t1 t2 : Shadow, ∀ v ∈ crossPairRisks dst t1 t2 safe,
      v ∈ crossPairRisks dst t2 t1 safe := by
    intro t1 t2 v hv
    rcases mem_crossPairRisks.mp hv with ⟨p, hp, q, hq, hlt, rfl⟩
    refine mem_crossPairRisks.mpr ⟨q, hq, p, hp, ?_, ?_⟩
    · rw [hsym q.1 p.1]; exact hlt
    · rw [hsym q.1 p.1]; ring
  have hloop : riskLoop dst s1 s2 safe = riskLoop dst s2 s1 safe := by
    rw [riskLoop_eq, riskLoop_eq]
    exact le_antisymm (listMax0_le_listMax0 (key s1 s2))
      (listMax0_le_listMax0 (key s2 s1))
  by_cases h1 : s1 = []
  · by_cases h2 : s2 = []
    · subst h1
      subst h2
      simp
    · subst h1
      refine iff_of_false ?_ (fun hiff => h2 (hiff.mp rfl))
      rw [calculate_collision_risk_some_of_ne dst [] s2 safe h2,
        (calculate_collision_risk_none_iff dst s2 [] safe).mpr ⟨h2, rfl⟩]
      exact fun heq => Option.noConfusion heq
  · by_cases h2 : s2 = []
    · subst h2
      refine iff_of_false ?_ (fun hiff => h1 (hiff.mpr rfl))
      rw [calculate_collision_risk_some_of_ne dst [] s1 safe h1,
        (calculate_collision_risk_none_iff dst s1 [] safe).mpr ⟨h1, rfl⟩]
      exact fun heq => Option.noConfusion heq
    · refine iff_of_true ?_ (iff_of_false h1 h2)
      rw [calculate_collision_risk_some_of_ne dst s1 s2 safe h2,
        calculate_collision_risk_some_of_ne dst s2 s1 safe h1, hloop]

/-- L1 norm on `Vec3`: a computable stand-in for `np.linalg.norm` that agrees
with the Euclidean norm on axis-aligned vectors (used to instantiate the
abstract `nrm` in concrete witnesses). -/
def nrmL1 : Nrm := fun v => |v.1| + |v.2.1| + |v.2.2|

/-- Distance between sample positions derived from a vector norm, as in
`np.linalg.norm(pos1[i] - pos2)`. -/
def dstOf (nrm : Nrm) : Vec3 → Vec3 → ℚ := fun a b => nrm (a - b)

theorem nrmL1_nonneg : ∀ v : Vec3, 0 ≤ nrmL1 v := by
  intro v
  have h1 : (0:ℚ) ≤ |v.1| := abs_nonneg _
  have h2 : (0:ℚ) ≤ |v.2.1| := abs_nonneg _
  have h3 : (0:ℚ) ≤ |v.2.2| := abs_nonneg _
  simp only [nrmL1]
  linarith

theorem dstOf_nrmL1_symm : ∀ a b : Vec3, dstOf nrmL1 a b = dstOf nrmL1 b a := by
  intro a b
  simp only [dstOf, nrmL1, Prod.fst_sub, Prod.snd_sub]
  rw [abs_sub_comm, abs_sub_comm a.2.1, abs_sub_comm a.2.2]

/-- Witness for C2 (amended) at a concrete input: shadow A has one sample at
the origin with weight 1, shadow B one sample at distance 1 with weight 1/2,
safe distance 2; the computation completes with value 1/4, which lies in
`[0,1]`. -/
theorem collision_risk_bounds_and_max_witness :
    calculate_collision_risk (dstOf nrmL1)
        [(((0:ℚ), (0:ℚ), (0:ℚ)), (1:ℚ))] [(((1:ℚ), (0:ℚ), (0:ℚ)), (1/2:ℚ))] 2 =
      some (1/4) ∧
    (0:ℚ) ≤ 1/4 ∧ (1/4:ℚ) ≤ 1 := by
  have heval : calculate_collision_risk (dstOf nrmL1)
      [(((0:ℚ), (0:ℚ), (0:ℚ)), (1:ℚ))] [(((1:ℚ), (0:ℚ), (0:ℚ)), (1/2:ℚ))] 2 =
      some (1/4) := by
    norm_num [calculate_collision_risk, riskLoop, dstOf, nrmL1, List.filter]
  have h := (collision_risk_bounds_and_max (dstOf nrmL1)
    [(((0:ℚ), (0:ℚ), (0:ℚ)), (1:ℚ))] [(((1:ℚ), (0:ℚ), (0:ℚ)), (1/2:ℚ))] 2
    (by norm_num [List.forall_mem_cons]) (by norm_num [List.forall_mem_cons])
    (by norm_num)
    (fun a b => nrmL1_nonneg (a - b))).2 (1/4) heval
  exact ⟨heval, h.1, h.2.1⟩

/-- C2 counterexample: a nonempty shadow (weights in `[0,1]`) against an
empty shadow at positive safe distance has no cross pair within the safe
distance, yet the source raises the numpy broadcast `ValueError` instead of
returning the scalar 0 — the call returns no scalar at all. -/
theorem collision_risk_broadcast_error_counterexample :
    calculate_collision_risk (dstOf nrmL1)
        [(((0:ℚ), (0:ℚ), (0:ℚ)), (1:ℚ))] [] 2 = none ∧
    crossPairRisks (dstOf nrmL1) [(((0:ℚ), (0:ℚ), (0:ℚ)), (1:ℚ))] [] 2 = [] :=
  ⟨rfl, rfl⟩

/-- Witness for C7 (amended) at a concrete pair of nonempty shadows. -/
theorem collision_risk_symm_witness :
    (calculate_collision_risk (dstOf nrmL1)
        [(((0:ℚ), (0:ℚ), (0:ℚ)), (1:ℚ)), (((0:ℚ), (2:ℚ), (0:ℚ)), (1/3:ℚ))]
        [(((1:ℚ), (0:ℚ), (0:ℚ)), (1/2:ℚ))] 4 =
      calculate_collision_risk (dstOf nrmL1)
        [(((1:ℚ), (0:ℚ), (0:ℚ)), (1/2:ℚ))]
        [(((0:ℚ), (0:ℚ), (0:ℚ)), (1:ℚ)), (((0:ℚ), (2:ℚ), (0:ℚ)), (1/3:ℚ))] 4) ↔
    (([(((0:ℚ), (0:ℚ), (0:ℚ)), (1:ℚ)), (((0:ℚ), (2:ℚ), (0:ℚ)), (1/3:ℚ))] :
        Shadow) = [] ↔
      ([(((1:ℚ), (0:ℚ), (0:ℚ)), (1/2:ℚ))] : Shadow) = []) :=
  collision_risk_symm (dstOf nrmL1) _ _ 4 dstOf_nrmL1_symm

/-- C7 counterexample: with one sample against an empty shadow, one
orientation raises the numpy broadcast `ValueError` while the reversed
orientation returns 0, so `risk(A, B, d) = risk(B, A, d)` fails. -/
theorem collision_risk_asymmetry_counterexample :
    calculate_collision_risk (dstOf nrmL1)
        [(((1:ℚ), (2:ℚ), (3:ℚ)), (1/2:ℚ))] [] 4 = none ∧
    calculate_collision_risk (dstOf nrmL1)
        [] [(((1:ℚ), (2:ℚ), (3:ℚ)), (1/2:ℚ))] 4 = some 0 ∧
    calculate_collision_risk (dstOf nrmL1)
        [(((1:ℚ), (2:ℚ), (3:ℚ)), (1/2:ℚ))] [] 4 ≠
      calculate_collision_risk (dstOf nrmL1)
        [] [(((1:ℚ), (2:ℚ), (3:ℚ)), (1/2:ℚ))] 4 :=
  ⟨rfl, rfl, fun heq => Option.noConfusion heq⟩

/-! ## Shadow Generator (`shadow.py`, `generate_shadow_points`, lines 15-41)

The Gaussian sampling (`np.random.multivariate_normal`) and density
evaluation (`multivariate_normal(...).pdf`) are modelled by an oracle
`rand : ℕ → Vec3 → Cov → List (Vec3 × ℚ)` mapping the step index, the
predicted mean position and the scaled covariance to the drawn samples
paired with their (nonnegative) densities.  The deterministic parts —
direction normalization with its zero-distance guard, the evenly spaced
time steps, the linear covariance growth, and the per-step weight
normalization by the peak density with its zero-peak guard — are embedded
directly. -/

/-- 3×3 covariance matrix, stored as three rows. -/
abbrev Cov : Type := Vec3 × Vec3 × Vec3

/-- Scalar multiple of a covariance matrix (`covariance * time_factor`). -/
def covSmul (t : ℚ) (c : Cov) : Cov := (t • c.1, t • c.2.1, t • c.2.2)

/-- `prediction_steps` default (shadow.py line 9, grid.py line 19). -/
def prediction_steps : ℕ := 20

/-- `uncertainty_growth_rate = 0.08` (grid.py line 20). -/
def uncertainty_growth_rate : ℚ := 2/25

/-- `time_horizon = 6.0` (grid.py line 23). -/
def time_horizon : ℚ := 6

/-- `np.linspace(0, time_horizon, prediction_steps)` entry `k`. -/
def timeStep (k : ℕ) : ℚ := time_horizon * k / 19

/-- Per-step weight normalization (shadow.py line 37):
`probs / np.max(probs) if np.max(probs) > 0 else probs`.  In the source the
list always has `5 + 2*step ≥ 5` entries, so the empty case never arises. -/
def stepWeights (probs : List ℚ) : List ℚ :=
  let m := (pyMax probs).getD 0
  if m > 0 then probs.map (fun p => p / m) else probs

/-- Embedding of `ProbabilityShadow.generate_shadow_points`. -/
def generate_shadow_points (nrm : Nrm) (rand : ℕ → Vec3 → Cov → List (Vec3 × ℚ))
    (position velocity goal : Vec3) (covariance : Cov) : Shadow :=
  let dir0 := goal - position
  let dist := nrm dir0
  let dir := if dist > 0 then (1/dist) • dir0 else dir0
  (List.range prediction_steps).flatMap (fun step =>
    let t := timeStep step
    let pred_pos := position + (t * nrm velocity) • dir
    let step_covariance := covSmul (1 + uncertainty_growth_rate * t) covariance
    let pts := rand step pred_pos step_covariance
    (pts.map (·.1)).zip (stepWeights (pts.map (·.2))))

/-- Normalized weights stay in `[0,1]` when the raw densities are nonnegative. -/
theorem stepWeights_mem_bounds {probs : List ℚ} (hnn : ∀ d ∈ probs, 0 ≤ d) :
    ∀ w ∈ stepWeights probs, 0 ≤ w ∧ w ≤ 1 := by
  intro w hw
  unfold stepWeights at hw
  rcases hm : pyMax probs with _ | m
  · cases probs with
    | nil => rw [hm] at hw; simp at hw
    | cons x xs => cases hm
  · rw [hm, Option.getD_some] at hw
    by_cases hpos : m > 0
    · rw [if_pos hpos] at hw
      rcases List.mem_map.mp hw with ⟨d, hd, rfl⟩
      exact ⟨div_nonneg (hnn d hd) hpos.le,
        (div_le_one hpos).mpr (le_pyMax hm d hd)⟩
    · rw [if_neg hpos] at hw
      have h0 : w ≤ 0 := le_trans (le_pyMax hm w hw) (not_lt.mp hpos)
      have h0' : 0 ≤ w := hnn w hw
      constructor <;> linarith

/-- When some density is positive, the modal sample receives weight exactly 1. -/
theorem stepWeights_modal {probs : List ℚ} {d : ℚ} (hd : d ∈ probs)
    (hdpos : 0 < d) : (1:ℚ) ∈ stepWeights probs := by
  have hne : probs ≠ [] := fun h => by rw [h] at hd; cases hd
  rcases pyMax_isSome hne with ⟨m, hm⟩
  have hmpos : 0 < m := lt_of_lt_of_le hdpos (le_pyMax hm d hd)
  unfold stepWeights
  rw [hm, Option.getD_some, if_pos hmpos]
  exact List.mem_map.mpr ⟨m, pyMax_mem hm, div_self (ne_of_gt hmpos)⟩

/-- When every density is zero, every weight is zero (and no division occurs:
the `np.max(probs) > 0` guard fails). -/
theorem stepWeights_degenerate {probs : List ℚ} (hz : ∀ d ∈ probs, d = 0) :
    ∀ w ∈ stepWeights probs, w = 0 := by
  intro w hw
  unfold stepWeights at hw
  rcases hm : pyMax probs with _ | m
  · rw [hm] at hw
    simp only [Option.getD_none, gt_iff_lt, lt_self_iff_false, if_false] at hw
    exact hz w hw
  · have hm0 : m = 0 := hz m (pyMax_mem hm)
    rw [hm, hm0] at hw
    simp only [Option.getD_some, gt_iff_lt, lt_self_iff_false, if_false] at hw
    exact hz w hw

/-- C3: every weight produced by `generate_shadow_points` lies in `[0,1]`;
within each prediction step, some sample has weight exactly 1 as soon as one
sampled density is positive, and all weights are 0 when every sampled density
of the step is zero. -/
theorem shadow_weights_normalized (nrm : Nrm)
    (rand : ℕ → Vec3 → Cov → List (Vec3 × ℚ))
    (position velocity goal : Vec3) (covariance : Cov)
    (hnn : ∀ k p c, ∀ x ∈ rand k p c, 0 ≤ x.2) :
    (∀ pw ∈ generate_shadow_points nrm rand position velocity goal covariance,
      0 ≤ pw.2 ∧ pw.2 ≤ 1) ∧
    (∀ k p c, (∃ x ∈ rand k p c, 0 < x.2) →
      (1:ℚ) ∈ stepWeights ((rand k p c).map (·.2))) ∧
    (∀ k p c, (∀ x ∈ rand k p c, x.2 = 0) →
      ∀ w ∈ stepWeights ((rand k p c).map (·.2)), w = 0) := by
  refine ⟨?_, ?_, ?_⟩
  · intro pw hpw
    unfold generate_shadow_points at hpw
    rcases List.mem_flatMap.mp hpw with ⟨step, _, hblock⟩
    have h2 := (List.of_mem_zip hblock).2
    refine stepWeights_mem_bounds ?_ _ h2
    intro d hd
    rcases List.mem_map.mp hd with ⟨x, hx, rfl⟩
    exact hnn _ _ _ x hx
  · rintro k p c ⟨x, hx, hxpos⟩
    exact stepWeights_modal (List.mem_map.mpr ⟨x, hx, rfl⟩) hxpos
  · intro k p c hz w hw
    refine stepWeights_degenerate ?_ _ hw
    intro d hd
    rcases List.mem_map.mp hd with ⟨x, hx, rfl⟩
    exact hz x hx

/-- A concrete sampler: one sample at the predicted mean with density 1. -/
def randConst : ℕ → Vec3 → Cov → List (Vec3 × ℚ) := fun _ p _ => [(p, 1)]

/-- `np.eye(3) * 0.1`, the initial covariance (drone.py line 26). -/
def eye01 : Cov :=
  (((1/10:ℚ), 0, 0), ((0:ℚ), (1/10:ℚ), 0), ((0:ℚ), 0, (1/10:ℚ)))

/-- Witness for C3 at a concrete sampler and step. -/
theorem shadow_weights_normalized_witness :
    (1:ℚ) ∈ stepWeights ((randConst 0 ((0:ℚ), (0:ℚ), (0:ℚ)) eye01).map (·.2)) :=
  (shadow_weights_normalized nrmL1 randConst
    ((0:ℚ), (0:ℚ), (0:ℚ)) ((0:ℚ), (0:ℚ), (0:ℚ)) ((1:ℚ), (0:ℚ), (0:ℚ)) eye01
    (by intro k p c x hx
        simp only [randConst, List.mem_singleton] at hx
        rw [hx]
        norm_num)).2.1 0 _ _
    ⟨(((0:ℚ), (0:ℚ), (0:ℚ)), (1:ℚ)), by simp [randConst], one_pos⟩

/-! ## Drone state (`drone.py`) and grid configuration (`grid.py` lines 18-24) -/

/-- Embedding of the `DroneState` dataclass (`drone.py` lines 6-21). -/
structure DroneState where
  position : Vec3
  velocity : Vec3
  goal : Vec3
  uncertainty : ℚ
  covariance : Cov
  shadow_points : Shadow
  path_history : List Vec3
  collision_risk : ℚ
  rerouting : Bool
  start_position : Vec3
  rerouting_count : ℕ
  original_goal : Vec3
  rerouting_steps : ℕ
  deriving DecidableEq

/-- `DroneState.initialize` (drone.py lines 23-42). -/
def mkDrone (start goal : Vec3) : DroneState :=
  { position := start
    velocity := ((0:ℚ), (0:ℚ), (0:ℚ))
    goal := goal
    uncertainty := 1/10
    covariance := eye01
    shadow_points := []
    path_history := [start]
    collision_risk := 0
    rerouting := false
    start_position := start
    rerouting_count := 0
    original_goal := goal
    rerouting_steps := 0 }

/-- `DroneState.update_position` (drone.py lines 44-47). -/
def DroneState.update_position (d : DroneState) (new_position : Vec3) : DroneState :=
  { d with position := new_position, path_history := d.path_history ++ [new_position] }

/-- `DroneState.start_rerouting` (drone.py lines 49-54). -/
def DroneState.start_rerouting (d : DroneState) (new_goal : Vec3) : DroneState :=
  { d with rerouting := true, rerouting_steps := 0, goal := new_goal,
           rerouting_count := d.rerouting_count + 1 }

/-- `DroneState.stop_rerouting` (drone.py lines 56-60). -/
def DroneState.stop_rerouting (d : DroneState) : DroneState :=
  { d with rerouting := false, rerouting_steps := 0, goal := d.original_goal }

/-- The assignment `drone.collision_risk = risk` (grid.py line 145). -/
def riskedDrone (d : DroneState) (risk : ℚ) : DroneState :=
  { d with collision_risk := risk }

@[simp] theorem riskedDrone_position (d : DroneState) (r : ℚ) :
    (riskedDrone d r).position = d.position := rfl

@[simp] theorem riskedDrone_velocity (d : DroneState) (r : ℚ) :
    (riskedDrone d r).velocity = d.velocity := rfl

@[simp] theorem riskedDrone_goal (d : DroneState) (r : ℚ) :
    (riskedDrone d r).goal = d.goal := rfl

@[simp] theorem riskedDrone_covariance (d : DroneState) (r : ℚ) :
    (riskedDrone d r).covariance = d.covariance := rfl

@[simp] theorem riskedDrone_shadow_points (d : DroneState) (r : ℚ) :
    (riskedDrone d r).shadow_points = d.shadow_points := rfl

@[simp] theorem riskedDrone_collision_risk (d : DroneState) (r : ℚ) :
    (riskedDrone d r).collision_risk = r := rfl

@[simp] theorem riskedDrone_rerouting (d : DroneState) (r : ℚ) :
    (riskedDrone d r).rerouting = d.rerouting := rfl

@[simp] theorem riskedDrone_start_position (d : DroneState) (r : ℚ) :
    (riskedDrone d r).start_position = d.start_position := rfl

@[simp] theorem riskedDrone_rerouting_count (d : DroneState) (r : ℚ) :
    (riskedDrone d r).rerouting_count = d.rerouting_count := rfl

@[simp] theorem riskedDrone_original_goal (d : DroneState) (r : ℚ) :
    (riskedDrone d r).original_goal = d.original_goal := rfl

@[simp] theorem riskedDrone_rerouting_steps (d : DroneState) (r : ℚ) :
    (riskedDrone d r).rerouting_steps = d.rerouting_steps := rfl

@[simp] theorem start_rerouting_rerouting (d : DroneState) (g : Vec3) :
    (d.start_rerouting g).rerouting = true := rfl

@[simp] theorem start_rerouting_rerouting_steps (d : DroneState) (g : Vec3) :
    (d.start_rerouting g).rerouting_steps = 0 := rfl

@[simp] theorem start_rerouting_goal (d : DroneState) (g : Vec3) :
    (d.start_rerouting g).goal = g := rfl

@[simp] theorem start_rerouting_rerouting_count (d : DroneState) (g : Vec3) :
    (d.start_rerouting g).rerouting_count = d.rerouting_count + 1 := rfl

@[simp] theorem start_rerouting_original_goal (d : DroneState) (g : Vec3) :
    (d.start_rerouting g).original_goal = d.original_goal := rfl

@[simp] theorem start_rerouting_position (d : DroneState) (g : Vec3) :
    (d.start_rerouting g).position = d.position := rfl

/-- `collision_threshold = 0.25` (grid.py line 21). -/
def collision_threshold : ℚ := 1/4

/-- `safe_distance = 4.0` (grid.py line 22). -/
def safe_distance : ℚ := 4

/-- `rerouting_timeout = 50` (grid.py line 24). -/
def rerouting_timeout : ℕ := 50

/-- The shadow sampler as seen by the grid: an abstraction of
`ProbabilityShadow.generate_shadow_points` together with the fresh
`np.random` draws it makes.  The first argument is the draw counter,
incremented at every call site of `_update_shadow`; the remaining arguments
are the drone fields it reads (position, velocity, goal, covariance). -/
abbrev Gen : Type := ℕ → Vec3 → Vec3 → Vec3 → Cov → Shadow

/-- Abstraction of applying the horizontal-plane rotation matrix of the
`i`-th angle of `np.linspace(-pi/2, pi/2, 8)` (grid.py lines 68-78) to a
unit direction vector.  The real map is linear and fixes the vertical axis;
all theorems hold for an arbitrary `rotA`. -/
abbrev Rot : Type := ℕ → Vec3 → Vec3

/-- `np.clip(v, 0, space_size)` componentwise (grid.py lines 80, 139). -/
def clipV (v space_size : Vec3) : Vec3 :=
  (min (max v.1 0) space_size.1,
   min (max v.2.1 0) space_size.2.1,
   min (max v.2.2 0) space_size.2.2)

/-- `_update_shadow` (grid.py lines 44-52): regenerate the drone's shadow
from its current fields, consuming one fresh draw. -/
def updateShadow (gen : Gen) (seed : ℕ) (d : DroneState) : DroneState :=
  { d with shadow_points := gen seed d.position d.velocity d.goal d.covariance }

/-- The collision risks of a shadow against the shadows of all other drones,
in order (the generator inside `max(...)` at grid.py lines 145-153 and
86-94): `none` as soon as one risk computation raises the broadcast
`ValueError`. -/
def risksAgainst (nrm : Nrm) (sh : Shadow) : List Shadow → Option (List ℚ)
  | [] => some []
  | o :: os =>
    match calculate_collision_risk (dstOf nrm) sh o safe_distance,
        risksAgainst nrm sh os with
    | some r, some rs => some (r :: rs)
    | _, _ => none

/-- `max(...)` over the fallible risk generator: Python's `max` raises
`ValueError` on an empty sequence, and an exception raised while the
generator produces an item propagates; both abort the computation. -/
def maxRisk (nrm : Nrm) (sh : Shadow) (others : List Shadow) : Option ℚ :=
  (risksAgainst nrm sh others).bind pyMax

/-- Against a field of nonempty shadows every risk computation completes,
with one nonnegative risk per other drone. -/
theorem risksAgainst_of_nonempty (nrm : Nrm) (sh : Shadow) :
    ∀ others : List Shadow, (∀ o ∈ others, o ≠ []) →
      ∃ l, risksAgainst nrm sh others = some l ∧
        l.length = others.length ∧ ∀ r ∈ l, 0 ≤ r := by
  intro others
  induction others with
  | nil => exact fun _ => ⟨[], rfl, rfl, fun r hr => absurd hr (List.not_mem_nil r)⟩
  | cons o os ih =>
    intro hok
    obtain ⟨l, hl, hlen, hpos⟩ := ih (fun x hx => hok x (List.mem_cons_of_mem _ hx))
    refine ⟨riskLoop (dstOf nrm) sh o safe_distance :: l, ?_, ?_, ?_⟩
    · simp only [risksAgainst]
      rw [calculate_collision_risk_some_of_ne (dstOf nrm) sh o safe_distance
        (hok o (List.mem_cons_self _ _)), hl]
    · simp only [List.length_cons, hlen]
    · intro r hr
      rcases List.mem_cons.mp hr with rfl | hr
      · exact riskLoop_nonneg _ _ _ _
      · exact hpos r hr

/-- `max(...)` over a nonempty field of nonempty shadows completes with a
nonnegative risk. -/
theorem maxRisk_of_nonempty (nrm : Nrm) (sh : Shadow) (others : List Shadow)
    (hne : others ≠ []) (hok : ∀ o ∈ others, o ≠ []) :
    ∃ r, maxRisk nrm sh others = some r ∧ 0 ≤ r := by
  obtain ⟨l, hl, hlen, hpos⟩ := risksAgainst_of_nonempty nrm sh others hok
  have hlne : l ≠ [] := by
    intro h
    subst h
    exact hne (List.length_eq_zero.mp hlen.symm)
  obtain ⟨r, hr⟩ := pyMax_isSome hlne
  refine ⟨r, ?_, hpos r (pyMax_mem hr)⟩
  rw [maxRisk, hl]
  exact hr

/-- The rerouting state-machine advance (grid.py lines 124-129): increment
the step counter, then exit if the counter passed the timeout or the stored
risk fell below half the collision threshold. -/
def advanceRerouting (d : DroneState) : DroneState :=
  let d' := { d with rerouting_steps := d.rerouting_steps + 1 }
  if d'.rerouting_steps > rerouting_timeout ∨
      d'.collision_risk < collision_threshold * (1/2) then
    d'.stop_rerouting
  else d'

/-- The movement step (grid.py lines 131-140): steer toward the current
goal at speed `1.5` plus a random perturbation `ε`, scale by `dt`, clamp to
the bounding box, and append to the path history. -/
def moveDrone (nrm : Nrm) (space_size : Vec3) (dt ε : ℚ) (d : DroneState) : DroneState :=
  let direction_to_goal := d.goal - d.position
  let distance_to_goal := nrm direction_to_goal
  if distance_to_goal > 0 then
    let speed := 3/2 + ε
    let vel := (speed / distance_to_goal) • direction_to_goal
    let new_pos := clipV (d.position + dt • vel) space_size
    ({ d with velocity := vel }).update_position new_pos
  else d

/-- Stages 1-2 of `_update_drone` (grid.py lines 120-140): if the distance
to the original goal exceeds `0.1`, advance the rerouting state machine
(when rerouting) and move toward the current goal. -/
def stageMoved (nrm : Nrm) (space_size : Vec3) (dt ε : ℚ) (d : DroneState) : DroneState :=
  if nrm (d.original_goal - d.position) > 1/10 then
    moveDrone nrm space_size dt ε (if d.rerouting then advanceRerouting d else d)
  else d

/-- The drone as it stands right after the per-tick shadow regeneration
(grid.py line 142), just before the risk computation. -/
def midDrone (nrm : Nrm) (gen : Gen) (space_size : Vec3) (dt ε : ℚ) (seed : ℕ)
    (d : DroneState) : DroneState :=
  updateShadow gen seed (stageMoved nrm space_size dt ε d)

/-- `risk < lowest_risk` where `lowest_risk` starts at `float('inf')`
(modelled by `none`). -/
def ltInf (r : ℚ) : Option ℚ → Bool
  | none => true
  | some l => decide (r < l)

/-- The candidate goals of `_find_alternative_path` (grid.py lines 67-80),
in loop order: radii `[5, 10, 15]` outer, the 8 angles inner; each candidate
is `clip(position + radius * rotated_direction, 0, space_size)`. -/
def candidateList (rotA : Rot) (pos u space_size : Vec3) : List Vec3 :=
  [(5:ℚ), 10, 15].flatMap (fun radius =>
    (List.range 8).map (fun i => clipV (pos + radius • rotA i u) space_size))

/-- The trial loop of `_find_alternative_path` (grid.py lines 70-102).
Each iteration substitutes the candidate goal, regenerates the shadow
(one draw), computes the risk against the other drones' shadows — `none`
when Python's `max` raises on an empty drone field or a broadcast raises
inside it — tracks the strictly smallest risk and its candidate, then
restores the original goal and regenerates the shadow again (a second
draw). -/
def searchLoop (nrm : Nrm) (gen : Gen) (others : List Shadow) :
    List Vec3 → Option Vec3 → Option ℚ → DroneState → ℕ →
    Option (Option Vec3 × Option ℚ × DroneState × ℕ)
  | [], best, lowest, d, s => some (best, lowest, d, s)
  | c :: cs, best, lowest, d, s =>
    match maxRisk nrm (gen s d.position d.velocity c d.covariance) others with
    | none => none
    | some risk =>
      searchLoop nrm gen others cs
        (if ltInf risk lowest then some c else best)
        (if ltInf risk lowest then some risk else lowest)
        { d with shadow_points := gen (s + 1) d.position d.velocity d.goal d.covariance }
        (s + 2)

/-- `_find_alternative_path` (grid.py lines 54-104).  Returns the chosen
alternate goal (if any), the drone with its shadow as the search leaves it,
and the advanced draw counter; `none` models the `ValueError` escaping from
the `max(...)` over an empty drone field. -/
def findAlternativePath (nrm : Nrm) (gen : Gen) (rotA : Rot) (space_size : Vec3)
    (d : DroneState) (others : List Shadow) (seed : ℕ) :
    Option (Option Vec3 × DroneState × ℕ) :=
  let direction_to_goal := d.original_goal - d.position
  let distance_to_goal := nrm direction_to_goal
  if distance_to_goal > 0 then
    match searchLoop nrm gen others
        (candidateList rotA d.position ((1/distance_to_goal) • direction_to_goal) space_size)
        none none d seed with
    | none => none
    | some (best, lowest, d', s') =>
      some ((match lowest with
              | some l => if l < d.collision_risk then best else none
              | none => none), d', s')
  else some (none, d, seed)

/-- `_update_drone` (grid.py lines 118-158): optional state-machine advance
and movement, shadow regeneration, risk recomputation (Python's `max` over
the other drones — `none` on an empty field or on a broadcast error), and
the `Nominal → Rerouting` entry check. -/
def updateDrone (nrm : Nrm) (gen : Gen) (rotA : Rot) (space_size : Vec3)
    (dt : ℚ) (d : DroneState) (others : List Shadow) (ε : ℚ) (seed : ℕ) :
    Option (DroneState × ℕ) :=
  let d2 := midDrone nrm gen space_size dt ε seed d
  match maxRisk nrm d2.shadow_points others with
  | none => none
  | some risk =>
    let d3 := riskedDrone d2 risk
    if risk > collision_threshold ∧ d3.rerouting = false then
      match findAlternativePath nrm gen rotA space_size d3 others (seed + 1) with
      | none => none
      | some (some g, d4, s4) => some (d4.start_rerouting g, s4)
      | some (none, d4, s4) => some (d4, s4)
    else some (d3, seed + 1)

/-- A placeholder drone for out-of-range list reads (never hit: the update
loop only reads indices below the list length). -/
def dummyDrone : DroneState := mkDrone ((0:ℚ), 0, 0) ((0:ℚ), 0, 0)

/-- One pass of `ProbabilityShadowGrid.update` over the listed drone
indices (grid.py lines 106-109): drones are updated in order, each reading
the current (partially updated) shadows of all the others. -/
def updateGridGo (nrm : Nrm) (gen : Gen) (rotA : Rot) (space_size : Vec3)
    (dt : ℚ) (εs : ℕ → ℚ) :
    List ℕ → List DroneState → ℕ → Option (List DroneState × ℕ)
  | [], cur, seed => some (cur, seed)
  | i :: is, cur, seed =>
    match updateDrone nrm gen rotA space_size dt (cur.getD i dummyDrone)
        ((cur.take i ++ cur.drop (i + 1)).map (·.shadow_points)) (εs i) seed with
    | none => none
    | some (d', s') => updateGridGo nrm gen rotA space_size dt εs is (cur.set i d') s'

/-- One simulation tick, `ProbabilityShadowGrid.update` (grid.py lines
106-116), restricted to the drone updates.  The metrics record appended at
the end of the tick reads the drone states without feeding back into them;
it is modelled separately (`completion_percentage`). -/
def updateGrid (nrm : Nrm) (gen : Gen) (rotA : Rot) (space_size : Vec3)
    (dt : ℚ) (ds : List DroneState) (εs : ℕ → ℚ) (seed : ℕ) :
    Option (List DroneState × ℕ) :=
  updateGridGo nrm gen rotA space_size dt εs (List.range ds.length) ds seed

/-- `initialize_drone` for a list of (start, goal) pairs (grid.py lines
37-42): create each drone and generate its first shadow, consuming one
draw per drone. -/
def initGrid (gen : Gen) (pairs : List (Vec3 × Vec3)) : List DroneState × ℕ :=
  pairs.foldl (fun acc p =>
    (acc.1 ++ [updateShadow gen acc.2 (mkDrone p.1 p.2)], acc.2 + 1)) ([], 0)

/-- The grid states reachable at tick boundaries: the initialized
configuration, closed under successful ticks (with per-tick time step and
speed-noise oracle chosen freely). -/
inductive Reachable (nrm : Nrm) (gen : Gen) (rotA : Rot) (space_size : Vec3) :
    List DroneState × ℕ → Prop
  | start (pairs : List (Vec3 × Vec3)) :
      Reachable nrm gen rotA space_size (initGrid gen pairs)
  | tick (s s' : List DroneState × ℕ) (dt : ℚ) (εs : ℕ → ℚ) :
      Reachable nrm gen rotA space_size s →
      updateGrid nrm gen rotA space_size dt s.1 εs s.2 = some s' →
      Reachable nrm gen rotA space_size s'

/-! ## C1: a single-agent tick never completes

With exactly one drone, the generator inside `max(...)` at grid.py lines
145-153 is empty, so Python's `max()` raises `ValueError` and the tick
aborts — contradicting the spec, which defines single-agent risk as 0 and
promises that the tick loop always completes. -/

/-- C1 (code_bug evidence): for every single-drone grid, every tick aborts:
the risk computation is `max()` over an empty sequence. -/
theorem single_agent_tick_raises (nrm : Nrm) (gen : Gen) (rotA : Rot)
    (space_size : Vec3) (dt : ℚ) (d : DroneState) (εs : ℕ → ℚ) (seed : ℕ) :
    updateGrid nrm gen rotA space_size dt [d] εs seed = none := by
  simp [updateGrid, updateGridGo, updateDrone, maxRisk, risksAgainst, pyMax,
    Option.bind]

/-- All drone fields except the shadow agree (the net effect of the
replanner's trial loop on the searching drone). -/
def agreesExceptShadow (d' d : DroneState) : Prop :=
  d'.position = d.position ∧ d'.velocity = d.velocity ∧ d'.goal = d.goal ∧
  d'.uncertainty = d.uncertainty ∧ d'.covariance = d.covariance ∧
  d'.path_history = d.path_history ∧ d'.collision_risk = d.collision_risk ∧
  d'.rerouting = d.rerouting ∧ d'.start_position = d.start_position ∧
  d'.rerouting_count = d.rerouting_count ∧ d'.original_goal = d.original_goal ∧
  d'.rerouting_steps = d.rerouting_steps

theorem agreesExceptShadow_refl (d : DroneState) : agreesExceptShadow d d :=
  ⟨rfl, rfl, rfl, rfl, rfl, rfl, rfl, rfl, rfl, rfl, rfl, rfl⟩

theorem agreesExceptShadow_shadow (d : DroneState) (sh : Shadow) :
    agreesExceptShadow { d with shadow_points := sh } d :=
  ⟨rfl, rfl, rfl, rfl, rfl, rfl, rfl, rfl, rfl, rfl, rfl, rfl⟩

theorem agreesExceptShadow_trans {d₁ d₂ d₃ : DroneState}
    (h₁ : agreesExceptShadow d₁ d₂) (h₂ : agreesExceptShadow d₂ d₃) :
    agreesExceptShadow d₁ d₃ := by
  obtain ⟨a1, a2, a3, a4, a5, a6, a7, a8, a9, a10, a11, a12⟩ := h₁
  obtain ⟨b1, b2, b3, b4, b5, b6, b7, b8, b9, b10, b11, b12⟩ := h₂
  exact ⟨a1.trans b1, a2.trans b2, a3.trans b3, a4.trans b4, a5.trans b5,
    a6.trans b6, a7.trans b7, a8.trans b8, a9.trans b9, a10.trans b10,
    a11.trans b11, a12.trans b12⟩

/-- The trial loop leaves every drone field except the shadow unchanged,
and the final shadow is either untouched (empty candidate list) or a fresh
regeneration for the drone's own restored goal. -/
theorem searchLoop_frame (nrm : Nrm) (gen : Gen) (others : List Shadow) :
    ∀ (cs : List Vec3) (best : Option Vec3) (lowest : Option ℚ)
      (d : DroneState) (s : ℕ) (b : Option Vec3) (l : Option ℚ)
      (d' : DroneState) (s' : ℕ),
    searchLoop nrm gen others cs best lowest d s = some (b, l, d', s') →
    agreesExceptShadow d' d ∧
      (d'.shadow_points = d.shadow_points ∨
        ∃ s0, d'.shadow_points = gen s0 d.position d.velocity d.goal d.covariance) := by
  intro cs
  induction cs with
  | nil =>
    intro best lowest d s b l d' s' h
    simp only [searchLoop, Option.some.injEq, Prod.mk.injEq] at h
    rw [← h.2.2.1]
    exact ⟨agreesExceptShadow_refl d, Or.inl rfl⟩
  | cons c cs ih =>
    intro best lowest d s b l d' s' h
    simp only [searchLoop] at h
    rcases hr : maxRisk nrm (gen s d.position d.velocity c d.covariance) others
      with _ | risk
    · rw [hr] at h; cases h
    · rw [hr] at h
      obtain ⟨hframe, hshadow⟩ := ih _ _ _ _ _ _ _ _ h
      refine ⟨agreesExceptShadow_trans hframe (agreesExceptShadow_shadow d _), ?_⟩
      rcases hshadow with hs | ⟨s0, hs⟩
      · exact Or.inr ⟨s + 1, hs⟩
      · exact Or.inr ⟨s0, hs⟩

/-- After `_find_alternative_path` returns, every field of the searching
drone except the shadow equals its pre-call value, and the shadow is either
untouched or a fresh regeneration for the restored goal. -/
theorem findAlternativePath_frame (nrm : Nrm) (gen : Gen) (rotA : Rot)
    (space_size : Vec3) (d : DroneState) (others : List Shadow) (seed : ℕ)
    (alt : Option Vec3) (d' : DroneState) (s' : ℕ)
    (h : findAlternativePath nrm gen rotA space_size d others seed = some (alt, d', s')) :
    agreesExceptShadow d' d ∧
      (d'.shadow_points = d.shadow_points ∨
        ∃ s0, d'.shadow_points = gen s0 d.position d.velocity d.goal d.covariance) := by
  unfold findAlternativePath at h
  by_cases hdist : nrm (d.original_goal - d.position) > 0
  · rw [if_pos hdist] at h
    rcases hs : searchLoop nrm gen others
        (candidateList rotA d.position
          ((1 / nrm (d.original_goal - d.position)) • (d.original_goal - d.position))
          space_size) none none d seed with _ | ⟨b, l, d'', s''⟩
    · rw [hs] at h; cases h
    · rw [hs] at h
      simp only [Option.some.injEq, Prod.mk.injEq] at h
      obtain ⟨-, h2, -⟩ := h
      rw [← h2]
      exact searchLoop_frame nrm gen others _ _ _ _ _ _ _ _ _ hs
  · rw [if_neg hdist] at h
    simp only [Option.some.injEq, Prod.mk.injEq] at h
    rw [← h.2.1]
    exact ⟨agreesExceptShadow_refl d, Or.inl rfl⟩

/-- The risk a trial of candidate goal `c` would compute at draw `s`
(grid.py lines 82-94, with the drone's position, velocity and covariance —
which the search never modifies). -/
def trialRiskAt (nrm : Nrm) (gen : Gen) (others : List Shadow)
    (pos vel : Vec3) (cov : Cov) (s : ℕ) (c : Vec3) : Option ℚ :=
  maxRisk nrm (gen s pos vel c cov) others

/-- Invariant of the trial loop: whenever a best candidate is tracked, the
tracked lowest risk is that candidate's own trial risk. -/
theorem searchLoop_best_risk (nrm : Nrm) (gen : Gen) (others : List Shadow) :
    ∀ (cs : List Vec3) (best : Option Vec3) (lowest : Option ℚ)
      (d : DroneState) (s : ℕ) (b : Option Vec3) (l : Option ℚ)
      (d' : DroneState) (s' : ℕ),
    searchLoop nrm gen others cs best lowest d s = some (b, l, d', s') →
    (∀ g, best = some g → ∃ s0 r0, lowest = some r0 ∧
      trialRiskAt nrm gen others d.position d.velocity d.covariance s0 g = some r0) →
    (∀ g, b = some g → ∃ s0 r0, l = some r0 ∧
      trialRiskAt nrm gen others d.position d.velocity d.covariance s0 g = some r0) := by
  intro cs
  induction cs with
  | nil =>
    intro best lowest d s b l d' s' h hinv
    simp only [searchLoop, Option.some.injEq, Prod.mk.injEq] at h
    rw [← h.1, ← h.2.1]
    exact hinv
  | cons c cs ih =>
    intro best lowest d s b l d' s' h hinv
    simp only [searchLoop] at h
    rcases hr : maxRisk nrm (gen s d.position d.velocity c d.covariance) others
      with _ | risk
    · rw [hr] at h; cases h
    · rw [hr] at h
      have hrec := ih (if ltInf risk lowest then some c else best)
        (if ltInf risk lowest then some risk else lowest)
        { d with shadow_points := gen (s + 1) d.position d.velocity d.goal d.covariance }
        (s + 2) b l d' s' h
      refine hrec ?_
      by_cases hlt : ltInf risk lowest = true
      · rw [if_pos hlt, if_pos hlt]
        intro g hg
        rw [Option.some.injEq] at hg
        exact ⟨s, risk, rfl, by rw [← hg]; exact hr⟩
      · rw [if_neg hlt, if_neg hlt]
        exact hinv

/-- C4 support: when the candidate search returns an alternate goal, that
goal's own trial risk was strictly lower than the drone's current collision
risk (grid.py lines 96-104). -/
theorem findAlternativePath_strictly_better (nrm : Nrm) (gen : Gen) (rotA : Rot)
    (space_size : Vec3) (d : DroneState) (others : List Shadow) (seed : ℕ)
    (g : Vec3) (d' : DroneState) (s' : ℕ)
    (h : findAlternativePath nrm gen rotA space_size d others seed = some (some g, d', s')) :
    ∃ s0 l, trialRiskAt nrm gen others d.position d.velocity d.covariance s0 g = some l ∧
      l < d.collision_risk := by
  unfold findAlternativePath at h
  by_cases hdist : nrm (d.original_goal - d.position) > 0
  · rw [if_pos hdist] at h
    rcases hs : searchLoop nrm gen others
        (candidateList rotA d.position
          ((1 / nrm (d.original_goal - d.position)) • (d.original_goal - d.position))
          space_size) none none d seed with _ | ⟨b, lowest, d'', s''⟩
    · rw [hs] at h; cases h
    · rw [hs] at h
      simp only [Option.some.injEq, Prod.mk.injEq] at h
      obtain ⟨halt, -, -⟩ := h
      rcases lowest with _ | l0
      · cases halt
      · by_cases hlt : l0 < d.collision_risk
        · simp only [if_pos hlt] at halt
          obtain ⟨s0, r0, hr0, htrial⟩ :=
            searchLoop_best_risk nrm gen others _ _ _ _ _ _ _ _ _ hs
              (fun g h => by cases h) g halt
          rw [Option.some.injEq] at hr0
          exact ⟨s0, l0, by rw [hr0]; exact htrial, hlt⟩
        · simp only [if_neg hlt] at halt
          cases halt
  · rw [if_neg hdist] at h
    simp only [Option.some.injEq, Prod.mk.injEq] at h
    cases h.1

/-- When the drone sits at zero (abstract) distance from its original goal,
the search direction cannot be normalized and the search returns no
candidate (grid.py lines 63, 104: the loop body never runs and
`lowest_risk` stays `inf`). -/
theorem findAlternativePath_at_goal (nrm : Nrm) (gen : Gen) (rotA : Rot)
    (space_size : Vec3) (d : DroneState) (others : List Shadow) (seed : ℕ)
    (hdist : ¬ nrm (d.original_goal - d.position) > 0) :
    findAlternativePath nrm gen rotA space_size d others seed = some (none, d, seed) := by
  unfold findAlternativePath
  rw [if_neg hdist]

/-- The fields that neither the movement step nor the shadow regeneration
touch: steering target, rerouting state machine, risk and identity fields. -/
def agreesOnControl (d' d : DroneState) : Prop :=
  d'.goal = d.goal ∧ d'.rerouting = d.rerouting ∧
  d'.rerouting_steps = d.rerouting_steps ∧
  d'.rerouting_count = d.rerouting_count ∧
  d'.original_goal = d.original_goal ∧
  d'.collision_risk = d.collision_risk ∧ d'.covariance = d.covariance ∧
  d'.start_position = d.start_position ∧ d'.uncertainty = d.uncertainty

theorem agreesOnControl_refl (d : DroneState) : agreesOnControl d d :=
  ⟨rfl, rfl, rfl, rfl, rfl, rfl, rfl, rfl, rfl⟩

theorem agreesOnControl_trans {d₁ d₂ d₃ : DroneState}
    (h₁ : agreesOnControl d₁ d₂) (h₂ : agreesOnControl d₂ d₃) :
    agreesOnControl d₁ d₃ := by
  obtain ⟨a1, a2, a3, a4, a5, a6, a7, a8, a9⟩ := h₁
  obtain ⟨b1, b2, b3, b4, b5, b6, b7, b8, b9⟩ := h₂
  exact ⟨a1.trans b1, a2.trans b2, a3.trans b3, a4.trans b4, a5.trans b5,
    a6.trans b6, a7.trans b7, a8.trans b8, a9.trans b9⟩

/-- Movement (grid.py lines 131-140) only changes position, velocity and
path history. -/
theorem moveDrone_control (nrm : Nrm) (space_size : Vec3) (dt ε : ℚ)
    (d : DroneState) : agreesOnControl (moveDrone nrm space_size dt ε d) d := by
  unfold moveDrone DroneState.update_position
  dsimp only
  by_cases hc : nrm (d.goal - d.position) > 0
  · rw [if_pos hc]
    exact ⟨rfl, rfl, rfl, rfl, rfl, rfl, rfl, rfl, rfl⟩
  · rw [if_neg hc]
    exact agreesOnControl_refl d

/-- Shadow regeneration only changes the shadow. -/
theorem updateShadow_control (gen : Gen) (seed : ℕ) (d : DroneState) :
    agreesOnControl (updateShadow gen seed d) d :=
  ⟨rfl, rfl, rfl, rfl, rfl, rfl, rfl, rfl, rfl⟩

theorem agreesExceptShadow_control {d' d : DroneState}
    (h : agreesExceptShadow d' d) : agreesOnControl d' d := by
  obtain ⟨-, -, a3, a4, a5, -, a7, a8, a9, a10, a11, a12⟩ := h
  exact ⟨a3, a8, a12, a10, a11, a7, a5, a9, a4⟩

/-- The `Rerouting → Nominal` exit condition as evaluated by
`_update_drone` after incrementing the step counter (grid.py lines 127-128),
against the risk stored on the drone at that point. -/
def exitCond (d : DroneState) : Prop :=
  d.rerouting_steps + 1 > rerouting_timeout ∨
    d.collision_risk < collision_threshold * (1/2)

theorem advanceRerouting_of_exit {d : DroneState} (h : exitCond d) :
    agreesOnControl (advanceRerouting d)
      { d with rerouting := false, rerouting_steps := 0, goal := d.original_goal } := by
  unfold exitCond at h
  unfold advanceRerouting DroneState.stop_rerouting
  dsimp only
  rw [if_pos h]
  exact ⟨rfl, rfl, rfl, rfl, rfl, rfl, rfl, rfl, rfl⟩

theorem advanceRerouting_of_stay {d : DroneState} (h : ¬ exitCond d) :
    advanceRerouting d = { d with rerouting_steps := d.rerouting_steps + 1 } := by
  unfold exitCond at h
  unfold advanceRerouting
  dsimp only
  rw [if_neg h]

/-- Control fields of the drone at the risk-computation point, when the
incoming drone is rerouting, far from its original goal, and the exit
condition fires: the state machine has exited. -/
theorem midDrone_control_exit (nrm : Nrm) (gen : Gen) (space_size : Vec3)
    (dt ε : ℚ) (seed : ℕ) {d : DroneState} (hR : d.rerouting = true)
    (hfar : nrm (d.original_goal - d.position) > 1/10) (hex : exitCond d) :
    agreesOnControl (midDrone nrm gen space_size dt ε seed d)
      { d with rerouting := false, rerouting_steps := 0, goal := d.original_goal } := by
  unfold midDrone stageMoved
  rw [if_pos hfar, if_pos hR]
  exact agreesOnControl_trans
    (agreesOnControl_trans (updateShadow_control _ _ _) (moveDrone_control _ _ _ _ _))
    (advanceRerouting_of_exit hex)

/-- Control fields at the risk-computation point when the incoming drone is
rerouting, far from its original goal, and the exit condition does not fire:
only the step counter advanced. -/
theorem midDrone_control_stay (nrm : Nrm) (gen : Gen) (space_size : Vec3)
    (dt ε : ℚ) (seed : ℕ) {d : DroneState} (hR : d.rerouting = true)
    (hfar : nrm (d.original_goal - d.position) > 1/10) (hex : ¬ exitCond d) :
    agreesOnControl (midDrone nrm gen space_size dt ε seed d)
      { d with rerouting_steps := d.rerouting_steps + 1 } := by
  unfold midDrone stageMoved
  rw [if_pos hfar, if_pos hR, advanceRerouting_of_stay hex]
  exact agreesOnControl_trans (updateShadow_control _ _ _) (moveDrone_control _ _ _ _ _)

/-- Control fields at the risk-computation point when the incoming drone is
not rerouting: the state machine is untouched. -/
theorem midDrone_control_nominal (nrm : Nrm) (gen : Gen) (space_size : Vec3)
    (dt ε : ℚ) (seed : ℕ) {d : DroneState} (hR : d.rerouting = false) :
    agreesOnControl (midDrone nrm gen space_size dt ε seed d) d := by
  unfold midDrone stageMoved
  by_cases hfar : nrm (d.original_goal - d.position) > 1/10
  · rw [if_pos hfar, hR]
    simp only [Bool.false_eq_true, if_false]
    exact agreesOnControl_trans (updateShadow_control _ _ _) (moveDrone_control _ _ _ _ _)
  · rw [if_neg hfar]
    exact updateShadow_control _ _ _


/-- Case analysis of a successful `_update_drone` call: the computed risk
exists (the other-drone field was nonempty), and the tick either skipped the
entry check, or ran the candidate search and entered rerouting exactly when
the search returned a goal. -/
theorem updateDrone_shape (nrm : Nrm) (gen : Gen) (rotA : Rot)
    (space_size : Vec3) (dt : ℚ) (d : DroneState) (others : List Shadow)
    (ε : ℚ) (seed : ℕ) (post : DroneState) (s' : ℕ)
    (h : updateDrone nrm gen rotA space_size dt d others ε seed = some (post, s')) :
    ∃ risk, maxRisk nrm
        (midDrone nrm gen space_size dt ε seed d).shadow_points others = some risk ∧
      ((¬(risk > collision_threshold ∧
            (midDrone nrm gen space_size dt ε seed d).rerouting = false) ∧
        post = riskedDrone (midDrone nrm gen space_size dt ε seed d) risk ∧
        s' = seed + 1) ∨
       ((risk > collision_threshold ∧
            (midDrone nrm gen space_size dt ε seed d).rerouting = false) ∧
        ((∃ g d4, findAlternativePath nrm gen rotA space_size
            (riskedDrone (midDrone nrm gen space_size dt ε seed d) risk)
            others (seed + 1) = some (some g, d4, s') ∧
          post = d4.start_rerouting g) ∨
         (∃ d4, findAlternativePath nrm gen rotA space_size
            (riskedDrone (midDrone nrm gen space_size dt ε seed d) risk)
            others (seed + 1) = some (none, d4, s') ∧
          post = d4)))) := by
  unfold updateDrone at h
  dsimp only at h
  rcases hr : maxRisk nrm
      (midDrone nrm gen space_size dt ε seed d).shadow_points others with _ | risk
  · rw [hr] at h; cases h
  · rw [hr] at h
    dsimp only at h
    refine ⟨risk, rfl, ?_⟩
    by_cases hcond : risk > collision_threshold ∧
        (midDrone nrm gen space_size dt ε seed d).rerouting = false
    · rw [if_pos (show risk > collision_threshold ∧
          (riskedDrone (midDrone nrm gen space_size dt ε seed d) risk).rerouting = false
          from hcond)] at h
      rcases hfa : findAlternativePath nrm gen rotA space_size
          (riskedDrone (midDrone nrm gen space_size dt ε seed d) risk)
          others (seed + 1) with _ | ⟨alt, d4, s4⟩
      · rw [hfa] at h; cases h
      · rw [hfa] at h
        cases alt with
        | some g =>
          dsimp only at h
          rw [Option.some.injEq, Prod.mk.injEq] at h
          exact Or.inr ⟨hcond, Or.inl ⟨g, d4, by rw [h.2], h.1.symm⟩⟩
        | none =>
          dsimp only at h
          rw [Option.some.injEq, Prod.mk.injEq] at h
          exact Or.inr ⟨hcond, Or.inr ⟨d4, by rw [h.2], h.1.symm⟩⟩
    · rw [if_neg (show ¬(risk > collision_threshold ∧
          (riskedDrone (midDrone nrm gen space_size dt ε seed d) risk).rerouting = false)
          from hcond)] at h
      rw [Option.some.injEq, Prod.mk.injEq] at h
      exact Or.inl ⟨hcond, h.1.symm, h.2.symm⟩

/-- C5: for a rerouting drone farther than `0.1` from its original goal, a
successful tick exits `Rerouting` exactly when the incremented step counter
passes the timeout or the stored risk is below half the collision threshold;
on exit the goal reverts to the original goal and the step counter clears,
with the lifetime reroute counter unchanged — unless the same tick
immediately re-enters rerouting (a fresh entry, which increments the
counter).  When the exit condition fails, the drone stays rerouting with the
step counter incremented, and goal and reroute counter unchanged. -/
theorem rerouting_exit_behavior (nrm : Nrm) (gen : Gen) (rotA : Rot)
    (space_size : Vec3) (dt : ℚ) (d : DroneState) (others : List Shadow)
    (ε : ℚ) (seed : ℕ) (post : DroneState) (s' : ℕ)
    (hR : d.rerouting = true)
    (hfar : nrm (d.original_goal - d.position) > 1/10)
    (hupd : updateDrone nrm gen rotA space_size dt d others ε seed = some (post, s')) :
    (¬ exitCond d →
      post.rerouting = true ∧ post.rerouting_steps = d.rerouting_steps + 1 ∧
      post.rerouting_count = d.rerouting_count ∧ post.goal = d.goal) ∧
    (exitCond d →
      (post.rerouting = false ∧ post.goal = d.original_goal ∧
        post.rerouting_steps = 0 ∧ post.rerouting_count = d.rerouting_count) ∨
      (post.rerouting = true ∧ post.rerouting_steps = 0 ∧
        post.rerouting_count = d.rerouting_count + 1)) := by
  obtain ⟨risk, -, hcases⟩ :=
    updateDrone_shape nrm gen rotA space_size dt d others ε seed post s' hupd
  constructor
  · intro hnex
    obtain ⟨hg, hflag, hsteps, hcount, -, -, -, -, -⟩ :=
      midDrone_control_stay nrm gen space_size dt ε seed hR hfar hnex
    rcases hcases with ⟨-, hpost, -⟩ | ⟨⟨-, hmidflag⟩, -⟩
    · rw [hpost]
      simp only [riskedDrone_rerouting, riskedDrone_rerouting_steps,
        riskedDrone_rerouting_count, riskedDrone_goal, hg, hflag, hsteps, hcount]
      simp [hR]
    · rw [hflag, hR] at hmidflag
      cases hmidflag
  · intro hex
    obtain ⟨hg, hflag, hsteps, hcount, -, -, -, -, -⟩ :=
      midDrone_control_exit nrm gen space_size dt ε seed hR hfar hex
    rcases hcases with ⟨-, hpost, -⟩ | ⟨-, ⟨g, d4, hfa, hpost⟩ | ⟨d4, hfa, hpost⟩⟩
    · refine Or.inl ?_
      rw [hpost]
      simp only [riskedDrone_rerouting, riskedDrone_rerouting_steps,
        riskedDrone_rerouting_count, riskedDrone_goal, hg, hflag, hsteps, hcount]
      simp
    · refine Or.inr ?_
      obtain ⟨hframe, -⟩ := findAlternativePath_frame nrm gen rotA space_size _ others
        (seed + 1) (some g) d4 s' hfa
      obtain ⟨-, -, -, -, -, -, -, -, -, h4count, -, -⟩ := hframe
      rw [hpost]
      refine ⟨start_rerouting_rerouting d4 g, start_rerouting_rerouting_steps d4 g, ?_⟩
      rw [start_rerouting_rerouting_count, h4count, riskedDrone_rerouting_count, hcount]
    · refine Or.inl ?_
      obtain ⟨hframe, -⟩ := findAlternativePath_frame nrm gen rotA space_size _ others
        (seed + 1) none d4 s' hfa
      obtain ⟨-, -, f3, -, -, -, -, f8, -, f10, -, f12⟩ := hframe
      rw [hpost]
      rw [f3, f8, f10, f12]
      simp only [riskedDrone_rerouting, riskedDrone_rerouting_steps,
        riskedDrone_rerouting_count, riskedDrone_goal, hg, hflag, hsteps, hcount]
      simp

/-- When the drone is within `0.1` of its original goal, the movement stage
is skipped entirely (grid.py line 123). -/
theorem midDrone_of_near (nrm : Nrm) (gen : Gen) (space_size : Vec3)
    (dt ε : ℚ) (seed : ℕ) (d : DroneState)
    (h : ¬ nrm (d.original_goal - d.position) > 1/10) :
    midDrone nrm gen space_size dt ε seed d = updateShadow gen seed d := by
  unfold midDrone stageMoved
  rw [if_neg h]

/-- C4: for a drone that enters the tick `Nominal`, a successful tick ends
`Rerouting` iff the freshly computed risk exceeds the collision threshold
and the candidate search returned an alternate goal; on entry the lifetime
reroute counter increments, the step counter clears, and the adopted goal's
own trial risk was strictly below the computed risk; without entry the
counter and the goal are unchanged; and a drone sitting exactly at its
original goal (no search direction) never enters. -/
theorem nominal_entry_behavior (nrm : Nrm) (gen : Gen) (rotA : Rot)
    (space_size : Vec3) (dt : ℚ) (d : DroneState) (others : List Shadow)
    (ε : ℚ) (seed : ℕ) (post : DroneState) (s' : ℕ)
    (hN : d.rerouting = false)
    (hupd : updateDrone nrm gen rotA space_size dt d others ε seed = some (post, s')) :
    ∃ risk, maxRisk nrm
        (midDrone nrm gen space_size dt ε seed d).shadow_points others = some risk ∧
      ((post.rerouting = true ↔ risk > collision_threshold ∧
          ∃ g d4 s4, findAlternativePath nrm gen rotA space_size
            (riskedDrone (midDrone nrm gen space_size dt ε seed d) risk)
            others (seed + 1) = some (some g, d4, s4)) ∧
       (post.rerouting = true →
          post.rerouting_count = d.rerouting_count + 1 ∧
          post.rerouting_steps = 0 ∧
          ∃ s0 l, trialRiskAt nrm gen others
              (midDrone nrm gen space_size dt ε seed d).position
              (midDrone nrm gen space_size dt ε seed d).velocity
              (midDrone nrm gen space_size dt ε seed d).covariance s0 post.goal =
                some l ∧ l < risk) ∧
       (post.rerouting = false →
          post.rerouting_count = d.rerouting_count ∧ post.goal = d.goal) ∧
       (nrm (d.original_goal - d.position) = 0 → post.rerouting = false)) := by
  obtain ⟨risk, hr, hcases⟩ :=
    updateDrone_shape nrm gen rotA space_size dt d others ε seed post s' hupd
  obtain ⟨cg, cflag, csteps, ccount, cog, -, -, -, -⟩ :=
    midDrone_control_nominal nrm gen space_size dt ε seed hN
  have hmidflag : (midDrone nrm gen space_size dt ε seed d).rerouting = false := by
    rw [cflag, hN]
  refine ⟨risk, hr, ?_, ?_, ?_, ?_⟩
  · constructor
    · intro hpostR
      rcases hcases with ⟨-, hpost, -⟩ | ⟨hcond, ⟨g, d4, hfa, hpost⟩ | ⟨d4, hfa, hpost⟩⟩
      · rw [hpost, riskedDrone_rerouting, hmidflag] at hpostR
        cases hpostR
      · exact ⟨hcond.1, g, d4, s', hfa⟩
      · obtain ⟨⟨-, -, -, -, -, -, -, f8, -, -, -, -⟩, -⟩ :=
          findAlternativePath_frame nrm gen rotA space_size _ others (seed + 1)
            none d4 s' hfa
        rw [hpost, f8, riskedDrone_rerouting, hmidflag] at hpostR
        cases hpostR
    · rintro ⟨hrisk, g, d4, s4, hfa⟩
      rcases hcases with ⟨hniff, -, -⟩ | ⟨-, ⟨g', d4', hfa', hpost⟩ | ⟨d4', hfa', hpost⟩⟩
      · exact absurd ⟨hrisk, hmidflag⟩ hniff
      · rw [hpost, start_rerouting_rerouting]
      · rw [hfa'] at hfa
        simp at hfa
  · intro hpostR
    rcases hcases with ⟨-, hpost, -⟩ | ⟨-, ⟨g, d4, hfa, hpost⟩ | ⟨d4, hfa, hpost⟩⟩
    · rw [hpost, riskedDrone_rerouting, hmidflag] at hpostR
      cases hpostR
    · obtain ⟨⟨-, -, -, -, -, -, -, -, -, f10, -, -⟩, -⟩ :=
        findAlternativePath_frame nrm gen rotA space_size _ others (seed + 1)
          (some g) d4 s' hfa
      obtain ⟨s0, l, htr, hlt⟩ :=
        findAlternativePath_strictly_better nrm gen rotA space_size _ others
          (seed + 1) g d4 s' hfa
      rw [riskedDrone_position, riskedDrone_velocity, riskedDrone_covariance] at htr
      rw [riskedDrone_collision_risk] at hlt
      rw [hpost]
      refine ⟨?_, start_rerouting_rerouting_steps d4 g, ?_⟩
      · rw [start_rerouting_rerouting_count, f10, riskedDrone_rerouting_count, ccount]
      · exact ⟨s0, l, by rw [start_rerouting_goal]; exact htr, hlt⟩
    · obtain ⟨⟨-, -, -, -, -, -, -, f8, -, -, -, -⟩, -⟩ :=
        findAlternativePath_frame nrm gen rotA space_size _ others (seed + 1)
          none d4 s' hfa
      rw [hpost, f8, riskedDrone_rerouting, hmidflag] at hpostR
      cases hpostR
  · intro hpostF
    rcases hcases with ⟨-, hpost, -⟩ | ⟨-, ⟨g, d4, hfa, hpost⟩ | ⟨d4, hfa, hpost⟩⟩
    · rw [hpost, riskedDrone_rerouting_count, riskedDrone_goal, ccount, cg]
      exact ⟨rfl, rfl⟩
    · rw [hpost, start_rerouting_rerouting] at hpostF
      cases hpostF
    · obtain ⟨⟨-, -, f3, -, -, -, -, -, -, f10, -, -⟩, -⟩ :=
        findAlternativePath_frame nrm gen rotA space_size _ others (seed + 1)
          none d4 s' hfa
      rw [hpost, f10, f3, riskedDrone_rerouting_count, riskedDrone_goal, ccount, cg]
      exact ⟨rfl, rfl⟩
  · intro hz
    have hnfar : ¬ nrm (d.original_goal - d.position) > 1/10 := by
      rw [hz]; norm_num
    have hmid := midDrone_of_near nrm gen space_size dt ε seed d hnfar
    rcases hcases with ⟨-, hpost, -⟩ | ⟨-, ⟨g, d4, hfa, hpost⟩ | ⟨d4, hfa, hpost⟩⟩
    · rw [hpost, riskedDrone_rerouting, hmidflag]
    · rw [hmid] at hfa
      rw [findAlternativePath_at_goal nrm gen rotA space_size _ others (seed + 1)
        (by rw [show (riskedDrone (updateShadow gen seed d) risk).original_goal = d.original_goal from rfl,
              show (riskedDrone (updateShadow gen seed d) risk).position = d.position from rfl, hz]
            norm_num)] at hfa
      simp at hfa
    · obtain ⟨⟨-, -, -, -, -, -, -, f8, -, -, -, -⟩, -⟩ :=
        findAlternativePath_frame nrm gen rotA space_size _ others (seed + 1)
          none d4 s' hfa
      rw [hpost, f8, riskedDrone_rerouting, hmidflag]

/-! ## Reachable-state invariants (C6, C10) -/

/-- State-machine consistency for a single drone: while not rerouting, the
steering goal is the original goal and the step counter is clear. -/
def NominalConsistent (d : DroneState) : Prop :=
  d.rerouting = false → d.goal = d.original_goal ∧ d.rerouting_steps = 0

/-- The rerouting step counter never exceeds the timeout. -/
def StepsBounded (d : DroneState) : Prop :=
  d.rerouting_steps ≤ rerouting_timeout

theorem nominalConsistent_of_control {d' d : DroneState}
    (hc : agreesOnControl d' d) (h : NominalConsistent d) :
    NominalConsistent d' := by
  obtain ⟨c1, c2, c3, -, c5, -, -, -, -⟩ := hc
  intro hflag
  rw [c2] at hflag
  obtain ⟨h1, h2⟩ := h hflag
  exact ⟨by rw [c1, c5, h1], by rw [c3, h2]⟩

theorem stepsBounded_of_control {d' d : DroneState}
    (hc : agreesOnControl d' d) (h : StepsBounded d) : StepsBounded d' := by
  obtain ⟨-, -, c3, -, -, -, -, -, -⟩ := hc
  unfold StepsBounded
  rw [c3]
  exact h

theorem nominalConsistent_advanceRerouting {d : DroneState}
    (hflag : d.rerouting = true) : NominalConsistent (advanceRerouting d) := by
  unfold advanceRerouting DroneState.stop_rerouting
  dsimp only
  by_cases hex : d.rerouting_steps + 1 > rerouting_timeout ∨
      d.collision_risk < collision_threshold * (1/2)
  · rw [if_pos hex]
    intro _
    exact ⟨rfl, rfl⟩
  · rw [if_neg hex]
    intro hf
    have hf' : d.rerouting = false := hf
    rw [hflag] at hf'
    cases hf'

/-- After the increment-and-exit-check, the counter is always within the
timeout: either it was reset to 0 or it failed to pass the timeout. -/
theorem stepsBounded_advanceRerouting (d : DroneState) :
    StepsBounded (advanceRerouting d) := by
  unfold advanceRerouting DroneState.stop_rerouting StepsBounded
  dsimp only
  by_cases hex : d.rerouting_steps + 1 > rerouting_timeout ∨
      d.collision_risk < collision_threshold * (1/2)
  · rw [if_pos hex]
    exact Nat.zero_le _
  · rw [if_neg hex]
    push_neg at hex
    exact hex.1

theorem nominalConsistent_midDrone (nrm : Nrm) (gen : Gen) (space_size : Vec3)
    (dt ε : ℚ) (seed : ℕ) {d : DroneState} (h : NominalConsistent d) :
    NominalConsistent (midDrone nrm gen space_size dt ε seed d) := by
  unfold midDrone stageMoved
  by_cases hfar : nrm (d.original_goal - d.position) > 1/10
  · rw [if_pos hfar]
    have hmv : ∀ x : DroneState, NominalConsistent x →
        NominalConsistent (updateShadow gen seed (moveDrone nrm space_size dt ε x)) :=
      fun x hx => nominalConsistent_of_control
        (agreesOnControl_trans (updateShadow_control _ _ _) (moveDrone_control _ _ _ _ _)) hx
    cases hflag : d.rerouting with
    | true =>
      rw [if_pos rfl]
      exact hmv _ (nominalConsistent_advanceRerouting hflag)
    | false =>
      simp only [Bool.false_eq_true, if_false]
      exact hmv _ h
  · rw [if_neg hfar]
    exact nominalConsistent_of_control (updateShadow_control _ _ _) h

theorem stepsBounded_midDrone (nrm : Nrm) (gen : Gen) (space_size : Vec3)
    (dt ε : ℚ) (seed : ℕ) {d : DroneState} (h : StepsBounded d) :
    StepsBounded (midDrone nrm gen space_size dt ε seed d) := by
  unfold midDrone stageMoved
  by_cases hfar : nrm (d.original_goal - d.position) > 1/10
  · rw [if_pos hfar]
    have hmv : ∀ x : DroneState, StepsBounded x →
        StepsBounded (updateShadow gen seed (moveDrone nrm space_size dt ε x)) :=
      fun x hx => stepsBounded_of_control
        (agreesOnControl_trans (updateShadow_control _ _ _) (moveDrone_control _ _ _ _ _)) hx
    cases hflag : d.rerouting with
    | true =>
      rw [if_pos rfl]
      exact hmv _ (stepsBounded_advanceRerouting d)
    | false =>
      simp only [Bool.false_eq_true, if_false]
      exact hmv _ h
  · rw [if_neg hfar]
    exact stepsBounded_of_control (updateShadow_control _ _ _) h

theorem nominalConsistent_riskedDrone {d : DroneState} (r : ℚ)
    (h : NominalConsistent d) : NominalConsistent (riskedDrone d r) := h

theorem stepsBounded_riskedDrone {d : DroneState} (r : ℚ)
    (h : StepsBounded d) : StepsBounded (riskedDrone d r) := h

/-- A successful drone update preserves state-machine consistency. -/
theorem updateDrone_nominalConsistent (nrm : Nrm) (gen : Gen) (rotA : Rot)
    (space_size : Vec3) (dt : ℚ) {d : DroneState} (others : List Shadow)
    (ε : ℚ) (seed : ℕ) {post : DroneState} {s' : ℕ}
    (h : NominalConsistent d)
    (hupd : updateDrone nrm gen rotA space_size dt d others ε seed = some (post, s')) :
    NominalConsistent post := by
  obtain ⟨risk, -, hcases⟩ :=
    updateDrone_shape nrm gen rotA space_size dt d others ε seed post s' hupd
  have hmid := nominalConsistent_midDrone nrm gen space_size dt ε seed h
  rcases hcases with ⟨-, hpost, -⟩ | ⟨-, ⟨g, d4, hfa, hpost⟩ | ⟨d4, hfa, hpost⟩⟩
  · rw [hpost]
    exact nominalConsistent_riskedDrone risk hmid
  · rw [hpost]
    intro hflag
    rw [start_rerouting_rerouting] at hflag
    cases hflag
  · obtain ⟨hframe, -⟩ := findAlternativePath_frame nrm gen rotA space_size _ others
      (seed + 1) none d4 s' hfa
    rw [hpost]
    exact nominalConsistent_of_control (agreesExceptShadow_control hframe)
      (nominalConsistent_riskedDrone risk hmid)

/-- A successful drone update keeps the step counter within the timeout. -/
theorem updateDrone_stepsBounded (nrm : Nrm) (gen : Gen) (rotA : Rot)
    (space_size : Vec3) (dt : ℚ) {d : DroneState} (others : List Shadow)
    (ε : ℚ) (seed : ℕ) {post : DroneState} {s' : ℕ}
    (h : StepsBounded d)
    (hupd : updateDrone nrm gen rotA space_size dt d others ε seed = some (post, s')) :
    StepsBounded post := by
  obtain ⟨risk, -, hcases⟩ :=
    updateDrone_shape nrm gen rotA space_size dt d others ε seed post s' hupd
  have hmid := stepsBounded_midDrone nrm gen space_size dt ε seed h
  rcases hcases with ⟨-, hpost, -⟩ | ⟨-, ⟨g, d4, hfa, hpost⟩ | ⟨d4, hfa, hpost⟩⟩
  · rw [hpost]
    exact stepsBounded_riskedDrone risk hmid
  · rw [hpost]
    unfold StepsBounded
    rw [start_rerouting_rerouting_steps]
    exact Nat.zero_le _
  · obtain ⟨hframe, -⟩ := findAlternativePath_frame nrm gen rotA space_size _ others
      (seed + 1) none d4 s' hfa
    rw [hpost]
    exact stepsBounded_of_control (agreesExceptShadow_control hframe)
      (stepsBounded_riskedDrone risk hmid)

theorem getD_prop {P : DroneState → Prop} :
    ∀ (l : List DroneState) (i : ℕ), (∀ x ∈ l, P x) → P dummyDrone →
      P (l.getD i dummyDrone) := by
  intro l
  induction l with
  | nil => intro i _ hd; cases i <;> exact hd
  | cons x xs ih =>
    intro i h hd
    cases i with
    | zero => exact h x (List.mem_cons_self _ _)
    | succ j => exact ih j (fun y hy => h y (List.mem_cons_of_mem _ hy)) hd

/-- A per-drone property preserved by every successful drone update is
preserved by the tick loop over any index list. -/
theorem updateGridGo_all {P : DroneState → Prop} (nrm : Nrm) (gen : Gen)
    (rotA : Rot) (space_size : Vec3) (dt : ℚ) (εs : ℕ → ℚ)
    (hstep : ∀ (d : DroneState) (others : List Shadow) (ε : ℚ) (seed : ℕ)
      (post : DroneState) (s' : ℕ), P d →
      updateDrone nrm gen rotA space_size dt d others ε seed = some (post, s') → P post)
    (hdummy : P dummyDrone) :
    ∀ (is : List ℕ) (cur : List DroneState) (seed : ℕ)
      (out : List DroneState × ℕ),
      updateGridGo nrm gen rotA space_size dt εs is cur seed = some out →
      (∀ x ∈ cur, P x) → ∀ x ∈ out.1, P x := by
  intro is
  induction is with
  | nil =>
    intro cur seed out h hcur
    simp only [updateGridGo, Option.some.injEq] at h
    rw [← h]
    exact hcur
  | cons i is ih =>
    intro cur seed out h hcur
    simp only [updateGridGo] at h
    rcases hu : updateDrone nrm gen rotA space_size dt (cur.getD i dummyDrone)
        ((cur.take i ++ cur.drop (i + 1)).map (·.shadow_points)) (εs i) seed
      with _ | ⟨d', s'⟩
    · rw [hu] at h; cases h
    · rw [hu] at h
      refine ih (cur.set i d') s' out h ?_
      intro x hx
      rcases List.mem_or_eq_of_mem_set hx with hx | rfl
      · exact hcur x hx
      · exact hstep _ _ _ _ _ _ (getD_prop cur i hcur hdummy) hu

theorem initGrid_all {P : DroneState → Prop} (gen : Gen)
    (hmk : ∀ (seed : ℕ) (s g : Vec3), P (updateShadow gen seed (mkDrone s g))) :
    ∀ pairs : List (Vec3 × Vec3), ∀ x ∈ (initGrid gen pairs).1, P x := by
  have key : ∀ (pairs : List (Vec3 × Vec3)) (acc : List DroneState × ℕ),
      (∀ x ∈ acc.1, P x) →
      ∀ x ∈ (pairs.foldl (fun acc p =>
        (acc.1 ++ [updateShadow gen acc.2 (mkDrone p.1 p.2)], acc.2 + 1)) acc).1, P x := by
    intro pairs
    induction pairs with
    | nil => intro acc hacc; exact hacc
    | cons p ps ih =>
      intro acc hacc
      refine ih _ ?_
      intro x hx
      rcases List.mem_append.mp hx with hx | hx
      · exact hacc x hx
      · rw [List.mem_singleton.mp hx]
        exact hmk acc.2 p.1 p.2
    
  intro pairs
  exact key pairs ([], 0) (fun x hx => absurd hx (List.not_mem_nil x))

theorem nominalConsistent_dummy : NominalConsistent dummyDrone :=
  fun _ => ⟨rfl, rfl⟩

theorem stepsBounded_dummy : StepsBounded dummyDrone := Nat.zero_le _

theorem nominalConsistent_mk (gen : Gen) (seed : ℕ) (s g : Vec3) :
    NominalConsistent (updateShadow gen seed (mkDrone s g)) :=
  fun _ => ⟨rfl, rfl⟩

theorem stepsBounded_mk (gen : Gen) (seed : ℕ) (s g : Vec3) :
    StepsBounded (updateShadow gen seed (mkDrone s g)) := Nat.zero_le _

/-- C6 (amended): in every state reachable at a tick boundary, every
non-rerouting drone steers at its original goal with a cleared step counter.
(The claim's second half — that a rerouting drone never has
`goal = original_goal` — fails: see the counterexample.) -/
theorem reachable_nominal_consistent (nrm : Nrm) (gen : Gen) (rotA : Rot)
    (space_size : Vec3) (st : List DroneState × ℕ)
    (h : Reachable nrm gen rotA space_size st) :
    ∀ d ∈ st.1, d.rerouting = false →
      d.goal = d.original_goal ∧ d.rerouting_steps = 0 := by
  induction h with
  | start pairs =>
    exact initGrid_all gen (fun seed s g => nominalConsistent_mk gen seed s g) pairs
  | tick s s' dt εs hreach hupd ih =>
    exact updateGridGo_all nrm gen rotA space_size dt εs
      (fun d o e se post s2 hP hu =>
        updateDrone_nominalConsistent nrm gen rotA space_size dt o e se hP hu)
      nominalConsistent_dummy (List.range s.1.length) s.1 s.2 s' hupd ih

/-- C10: in every state reachable at a tick boundary, every drone's
rerouting step counter is at most the rerouting timeout: the increment
happens only while rerouting and immediately precedes the exit check, which
resets the counter on the same tick that pushes it past the timeout. -/
theorem reachable_steps_bounded (nrm : Nrm) (gen : Gen) (rotA : Rot)
    (space_size : Vec3) (st : List DroneState × ℕ)
    (h : Reachable nrm gen rotA space_size st) :
    ∀ d ∈ st.1, d.rerouting_steps ≤ rerouting_timeout := by
  induction h with
  | start pairs =>
    exact initGrid_all gen (fun seed s g => stepsBounded_mk gen seed s g) pairs
  | tick s s' dt εs hreach hupd ih =>
    exact updateGridGo_all nrm gen rotA space_size dt εs
      (fun d o e se post s2 hP hu =>
        updateDrone_stepsBounded nrm gen rotA space_size dt o e se hP hu)
      stepsBounded_dummy (List.range s.1.length) s.1 s.2 s' hupd ih

/-- The identity as a rotation oracle: the true rotation about the vertical
axis fixes vertical direction vectors, which is the only way witnesses and
the counterexample exercise it. -/
def rotId : Rot := fun _ v => v

/-- A sampler that ignores its arguments (shadow = one sample at a fixed
point with weight 1). -/
def genOne : Gen := fun _ _ _ _ _ => [(((1:ℚ), 0, 0), 1)]

/-- Witness for C6 (amended) at the initial state of a one-drone grid. -/
theorem reachable_nominal_consistent_witness :
    (updateShadow genOne 0 (mkDrone ((0:ℚ), 0, 0) ((9:ℚ), 0, 0))).goal =
      (updateShadow genOne 0 (mkDrone ((0:ℚ), 0, 0) ((9:ℚ), 0, 0))).original_goal ∧
    (updateShadow genOne 0 (mkDrone ((0:ℚ), 0, 0) ((9:ℚ), 0, 0))).rerouting_steps = 0 :=
  reachable_nominal_consistent nrmL1 genOne rotId ((50:ℚ), 50, 30) _
    (Reachable.start [(((0:ℚ), 0, 0), ((9:ℚ), 0, 0))])
    (updateShadow genOne 0 (mkDrone ((0:ℚ), 0, 0) ((9:ℚ), 0, 0)))
    (List.mem_singleton.mpr rfl) rfl

/-- Witness for C10 at the initial state of a one-drone grid. -/
theorem reachable_steps_bounded_witness :
    (updateShadow genOne 0 (mkDrone ((1:ℚ), 0, 0) ((7:ℚ), 0, 0))).rerouting_steps ≤
      rerouting_timeout :=
  reachable_steps_bounded nrmL1 genOne rotId ((50:ℚ), 50, 30) _
    (Reachable.start [(((1:ℚ), 0, 0), ((7:ℚ), 0, 0))])
    (updateShadow genOne 0 (mkDrone ((1:ℚ), 0, 0) ((7:ℚ), 0, 0)))
    (List.mem_singleton.mpr rfl)

/-! ## Counterexample scenario for C6

Two drones in a `50 * 50 * 30` volume.  Drone A sits at `(10,10,5)` heading
straight up to its goal `(10,10,10)`: because the replanner's rotations act
about the vertical axis, every rotated direction equals the vertical unit
vector, and the radius-5 candidates coincide exactly with A's original goal
(grid.py line 79: `position + direction * 5`).  The sampler draws are chosen
so that A's risk against B is `3/4` (over threshold), the very first trial
lands far away (risk `0`, strictly better), and every later trial is no
better — so the search returns A's own original goal and
`start_rerouting` puts A in `Rerouting` with `goal == original_goal`. -/

def shB0 : Shadow := [(((10:ℚ), 10, 9), 1)]

def shFAR : Shadow := [(((40:ℚ), 40, 25), 1)]

def shDEF : Shadow := [(((10:ℚ), 10, 10), 1)]

/-- The counterexample's sampler: draw 1 (B's initial shadow) is near A,
draw 3 (A's first trial) is far away, draws from 51 on (B's tick) are far
away, and every other draw sits at A's goal. -/
def genCex : Gen := fun s _ _ _ _ =>
  if s = 1 then shB0 else if s = 3 then shFAR else if 51 ≤ s then shFAR else shDEF

def spaceCex : Vec3 := ((50:ℚ), 50, 30)

def c6Pairs : List (Vec3 × Vec3) :=
  [(((10:ℚ), 10, 5), ((10:ℚ), 10, 10)), (((10:ℚ), 10, 9), ((0:ℚ), 0, 0))]

theorem shB0_ne : shB0 ≠ [] := fun h => List.noConfusion h

theorem risk_DEF_B0 :
    calculate_collision_risk (dstOf nrmL1) shDEF shB0 4 = some (3/4) := by
  norm_num [calculate_collision_risk, riskLoop, dstOf, nrmL1, shDEF, shB0,
    List.filter]

theorem risk_FAR_B0 :
    calculate_collision_risk (dstOf nrmL1) shFAR shB0 4 = some 0 := by
  norm_num [calculate_collision_risk, riskLoop, dstOf, nrmL1, shFAR, shB0,
    List.filter]

theorem risk_FAR_DEF :
    calculate_collision_risk (dstOf nrmL1) shFAR shDEF 4 = some 0 := by
  norm_num [calculate_collision_risk, riskLoop, dstOf, nrmL1, shFAR, shDEF,
    List.filter]

theorem pyMax_singleton (x : ℚ) : pyMax [x] = some x := rfl

/-- One unfolding step of the trial loop, given the trial's computed risk. -/
theorem searchLoop_cons (nrm : Nrm) (gen : Gen) (others : List Shadow)
    (c : Vec3) (cs : List Vec3) (best : Option Vec3) (lowest : Option ℚ)
    (d : DroneState) (s : ℕ) (r : ℚ)
    (hr : maxRisk nrm (gen s d.position d.velocity c d.covariance) others = some r) :
    searchLoop nrm gen others (c :: cs) best lowest d s =
      searchLoop nrm gen others cs (if ltInf r lowest then some c else best)
        (if ltInf r lowest then some r else lowest)
        { d with shadow_points := gen (s + 1) d.position d.velocity d.goal d.covariance }
        (s + 2) := by
  rw [searchLoop, hr]

/-- The drone as the trial loop leaves it: untouched when there was no
trial, otherwise equal up to the shadow, which holds the last restore
draw. -/
def loopedDrone (gen : Gen) (cs : List Vec3) (d : DroneState) (s : ℕ) : DroneState :=
  if cs = [] then d else
    { d with shadow_points := gen (s + 2 * cs.length - 1) d.position d.velocity d.goal d.covariance }

/-- Once the tracked lowest risk is `0`, no later trial can improve on it:
the loop finishes with the tracked best candidate and lowest risk
unchanged, the seed advanced by two per trial, and the drone's shadow
regenerated by the final restore draw. -/
theorem searchLoop_stuck (nrm : Nrm) (gen : Gen) (others : List Shadow)
    (hne : others ≠ []) (hok : ∀ o ∈ others, o ≠ []) :
    ∀ (cs : List Vec3) (best : Option Vec3) (d : DroneState) (s : ℕ),
    searchLoop nrm gen others cs best (some 0) d s =
      some (best, some 0, loopedDrone gen cs d s, s + 2 * cs.length) := by
  intro cs
  induction cs with
  | nil =>
    intro best d s
    rw [loopedDrone, if_pos rfl]
    rfl
  | cons c cs ih =>
    intro best d s
    obtain ⟨r, hr, hr0⟩ := maxRisk_of_nonempty nrm
      (gen s d.position d.velocity c d.covariance) others hne hok
    have hlt : ltInf r (some 0) = false := by
      simp only [ltInf, decide_eq_false_iff_not, not_lt]
      exact hr0
    rw [searchLoop_cons nrm gen others c cs best (some 0) d s r hr]
    rw [hlt]
    simp only [Bool.false_eq_true, if_false]
    rw [ih best { d with shadow_points := gen (s + 1) d.position d.velocity d.goal d.covariance } (s + 2)]
    unfold loopedDrone
    rw [if_neg (List.cons_ne_nil c cs)]
    have e1 : s + 2 * (c :: cs).length = s + 2 + 2 * cs.length := by
      simp only [List.length_cons]
      ring
    rw [e1]
    by_cases hcs : cs = []
    · subst hcs
      rw [if_pos rfl]
      simp only [List.length_nil, Nat.mul_zero, Nat.add_zero]
      rfl
    · rw [if_neg hcs]

/-- Line 104 of grid.py: `best_alternative if lowest_risk < drone.collision_risk
else None`, with `none` as the infinite initial `lowest_risk`. -/
def chooseAlt (lowest : Option ℚ) (risk : ℚ) (best : Option Vec3) : Option Vec3 :=
  match lowest with
  | some l => if l < risk then best else none
  | none => none

/-- `_find_alternative_path` in terms of its trial loop, for a drone away
from its original goal. -/
theorem findAlternativePath_pos (nrm : Nrm) (gen : Gen) (rotA : Rot)
    (sp : Vec3) (d : DroneState) (others : List Shadow) (seed : ℕ) (dist : ℚ)
    (hdisteq : nrm (d.original_goal - d.position) = dist) (hdist : dist > 0)
    (u : Vec3) (hueq : (1 / dist) • (d.original_goal - d.position) = u)
    (best : Option Vec3) (lowest : Option ℚ) (d' : DroneState) (s' : ℕ)
    (hres : searchLoop nrm gen others (candidateList rotA d.position u sp)
      none none d seed = some (best, lowest, d', s')) :
    findAlternativePath nrm gen rotA sp d others seed =
      some (chooseAlt lowest d.collision_risk best, d', s') := by
  unfold findAlternativePath
  dsimp only
  rw [hdisteq, if_pos hdist, hueq]
  simp only [hres]
  cases lowest <;> rfl

/-- Drone A as initialized: at `(10,10,5)`, goal `(10,10,10)`. -/
def cexA0 : DroneState := updateShadow genCex 0 (mkDrone ((10:ℚ), 10, 5) ((10:ℚ), 10, 10))

/-- Drone B as initialized: at `(10,10,9)`, goal `(0,0,0)`. -/
def cexB0 : DroneState := updateShadow genCex 1 (mkDrone ((10:ℚ), 10, 9) ((0:ℚ), 0, 0))

theorem cex_initGrid : initGrid genCex c6Pairs = ([cexA0, cexB0], 2) := rfl

/-- Drone A after the state-machine/movement stage and the per-tick shadow
regeneration of the counterexample tick (`dt = 0`, no speed noise): position
unchanged, velocity pointed up, shadow regenerated at draw 2. -/
def cexAmid : DroneState :=
  { position := ((10:ℚ), 10, 5)
    velocity := ((0:ℚ), 0, 3/2)
    goal := ((10:ℚ), 10, 10)
    uncertainty := 1/10
    covariance := eye01
    shadow_points := shDEF
    path_history := [((10:ℚ), 10, 5), ((10:ℚ), 10, 5)]
    collision_risk := 0
    rerouting := false
    start_position := ((10:ℚ), 10, 5)
    rerouting_count := 0
    original_goal := ((10:ℚ), 10, 10)
    rerouting_steps := 0 }

theorem cexA_mid : midDrone nrmL1 genCex spaceCex 0 0 2 cexA0 = cexAmid := by
  norm_num [midDrone, stageMoved, moveDrone, updateShadow,
    DroneState.update_position, cexA0, mkDrone, cexAmid, nrmL1, clipV, genCex,
    spaceCex, shDEF, Prod.mk_sub_mk, Prod.mk_add_mk, Prod.smul_mk,
    smul_eq_mul, Prod.ext_iff]

/-- The 23 candidates after the first: radius 5 repeats A's goal, radii 10
and 15 overshoot it vertically (`clip` leaves all of them inside the
volume). -/
def cexTail : List Vec3 := [((10:ℚ), 10, 10), ((10:ℚ), 10, 10), ((10:ℚ), 10, 10), ((10:ℚ), 10, 10), ((10:ℚ), 10, 10), ((10:ℚ), 10, 10), ((10:ℚ), 10, 10), ((10:ℚ), 10, 15), ((10:ℚ), 10, 15), ((10:ℚ), 10, 15), ((10:ℚ), 10, 15), ((10:ℚ), 10, 15), ((10:ℚ), 10, 15), ((10:ℚ), 10, 15), ((10:ℚ), 10, 15), ((10:ℚ), 10, 20), ((10:ℚ), 10, 20), ((10:ℚ), 10, 20), ((10:ℚ), 10, 20), ((10:ℚ), 10, 20), ((10:ℚ), 10, 20), ((10:ℚ), 10, 20), ((10:ℚ), 10, 20)]

theorem cex_cands :
    candidateList rotId ((10:ℚ), 10, 5) ((0:ℚ), 0, 1) spaceCex =
      ((10:ℚ), 10, 10) :: cexTail := by
  have hr8 : List.range 8 = [0, 1, 2, 3, 4, 5, 6, 7] := rfl
  norm_num [candidateList, rotId, hr8, clipV, spaceCex, cexTail,
    Prod.mk_add_mk, Prod.smul_mk, smul_eq_mul, Prod.ext_iff]

theorem risksAgainst_DEF : risksAgainst nrmL1 shDEF [shB0] = some [3/4] := by
  simp only [risksAgainst, safe_distance, risk_DEF_B0]

theorem risksAgainst_FAR : risksAgainst nrmL1 shFAR [shB0] = some [0] := by
  simp only [risksAgainst, safe_distance, risk_FAR_B0]

theorem maxRisk_DEF : maxRisk nrmL1 shDEF [shB0] = some (3/4) := by
  rw [maxRisk, risksAgainst_DEF]
  rfl

theorem maxRisk_FAR : maxRisk nrmL1 shFAR [shB0] = some 0 := by
  rw [maxRisk, risksAgainst_FAR]
  rfl

/-- Drone A as the candidate search leaves it: the restored shadow is from
draw 50, which lands at A's goal. -/
def cexAfin : DroneState := { riskedDrone cexAmid (3/4) with shadow_points := shDEF }

set_option maxHeartbeats 1000000 in
/-- The candidate search of the counterexample tick: it returns A's own
original goal `(10,10,10)` (the first radius-5 candidate, whose trial draw
landed far away with risk 0, strictly below the current risk 3/4). -/
theorem cexA_find : findAlternativePath nrmL1 genCex rotId spaceCex
    (riskedDrone cexAmid (3/4)) [shB0] 3 =
    some (some ((10:ℚ), 10, 10), cexAfin, 51) := by
  have hdisteq : nrmL1 ((riskedDrone cexAmid (3/4)).original_goal -
      (riskedDrone cexAmid (3/4)).position) = 5 := by
    norm_num [riskedDrone, cexAmid, nrmL1, Prod.mk_sub_mk]
  have hueq : ((1:ℚ) / 5) • ((riskedDrone cexAmid (3/4)).original_goal -
      (riskedDrone cexAmid (3/4)).position) = ((0:ℚ), 0, 1) := by
    norm_num [riskedDrone, cexAmid, Prod.mk_sub_mk, Prod.smul_mk, smul_eq_mul,
      Prod.ext_iff]
  have hpos : (riskedDrone cexAmid (3/4)).position = ((10:ℚ), 10, 5) := rfl
  have hcand : candidateList rotId (riskedDrone cexAmid (3/4)).position
      ((0:ℚ), 0, 1) spaceCex = ((10:ℚ), 10, 10) :: cexTail := by
    rw [hpos]
    exact cex_cands
  have h1 : maxRisk nrmL1 (genCex 3 (riskedDrone cexAmid (3/4)).position
      (riskedDrone cexAmid (3/4)).velocity ((10:ℚ), 10, 10)
      (riskedDrone cexAmid (3/4)).covariance) [shB0] = some 0 := by
    rw [show genCex 3 (riskedDrone cexAmid (3/4)).position
        (riskedDrone cexAmid (3/4)).velocity ((10:ℚ), 10, 10)
        (riskedDrone cexAmid (3/4)).covariance = shFAR by norm_num [genCex]]
    exact maxRisk_FAR
  have hokB : ∀ o ∈ [shB0], o ≠ [] := by
    intro o ho
    rw [List.mem_singleton.mp ho]
    exact shB0_ne
  have htaillen : cexTail.length = 23 := rfl
  have hsl : searchLoop nrmL1 genCex [shB0]
      (candidateList rotId (riskedDrone cexAmid (3/4)).position ((0:ℚ), 0, 1) spaceCex)
      none none (riskedDrone cexAmid (3/4)) 3 =
      some (some ((10:ℚ), 10, 10), some 0, cexAfin, 51) := by
    rw [hcand]
    rw [searchLoop_cons nrmL1 genCex [shB0] ((10:ℚ), 10, 10) cexTail none none
      (riskedDrone cexAmid (3/4)) 3 0 h1]
    rw [show (ltInf (0:ℚ) none : Bool) = true from rfl]
    rw [if_pos rfl, if_pos rfl]
    rw [searchLoop_stuck nrmL1 genCex [shB0] (List.cons_ne_nil _ _) hokB cexTail
      (some ((10:ℚ), 10, 10))
      { riskedDrone cexAmid (3/4) with shadow_points := genCex (3 + 1) (riskedDrone cexAmid (3/4)).position (riskedDrone cexAmid (3/4)).velocity (riskedDrone cexAmid (3/4)).goal (riskedDrone cexAmid (3/4)).covariance }
      (3 + 2)]
    rw [htaillen]
    unfold loopedDrone
    rw [if_neg (show cexTail ≠ [] by rw [cexTail]; exact List.cons_ne_nil _ _)]
    rw [htaillen]
    refine congrArg some (congrArg (Prod.mk (some ((10:ℚ), 10, 10)))
      (congrArg (Prod.mk (some 0)) ?_))
    refine congrArg (fun z => Prod.mk z (51 : ℕ)) ?_
    rw [show (3 + 2 + 2 * 23 - 1 : ℕ) = 50 from rfl]
    rw [show genCex 50 (riskedDrone cexAmid (3/4)).position (riskedDrone cexAmid (3/4)).velocity (riskedDrone cexAmid (3/4)).goal (riskedDrone cexAmid (3/4)).covariance = shDEF by norm_num [genCex]]
    rfl
  have hchoose : chooseAlt (some 0) (riskedDrone cexAmid (3/4)).collision_risk
      (some ((10:ℚ), 10, 10)) = some ((10:ℚ), 10, 10) := by
    unfold chooseAlt
    rw [riskedDrone_collision_risk]
    norm_num
  rw [findAlternativePath_pos nrmL1 genCex rotId spaceCex
    (riskedDrone cexAmid (3/4)) [shB0] 3 5 hdisteq (by norm_num)
    ((0:ℚ), 0, 1) hueq (some ((10:ℚ), 10, 10)) (some 0) cexAfin 51 hsl, hchoose]

set_option maxHeartbeats 1000000 in
/-- Drone A's full update on the counterexample tick: over-threshold risk,
search returns the original goal, `start_rerouting` adopts it. -/
theorem cexA_update : updateDrone nrmL1 genCex rotId spaceCex 0 cexA0 [shB0] 0 2 =
    some (cexAfin.start_rerouting ((10:ℚ), 10, 10), 51) := by
  unfold updateDrone
  dsimp only
  rw [cexA_mid]
  rw [show maxRisk nrmL1 cexAmid.shadow_points [shB0] = some (3/4) from
    by rw [show cexAmid.shadow_points = shDEF from rfl]; exact maxRisk_DEF]
  dsimp only
  rw [if_pos (⟨by norm_num [collision_threshold], rfl⟩ :
    (3/4 : ℚ) > collision_threshold ∧ (riskedDrone cexAmid (3/4)).rerouting = false)]
  rw [show (2 + 1 : ℕ) = 3 from rfl]
  rw [cexA_find]

/-- Drone B after its state-machine/movement stage and shadow regeneration
on the counterexample tick: position unchanged (`dt = 0`), velocity aimed at
its goal, shadow from draw 51 (far away). -/
def cexBmid : DroneState :=
  { position := ((10:ℚ), 10, 9)
    velocity := ((-15/29:ℚ), -15/29, -27/58)
    goal := ((0:ℚ), 0, 0)
    uncertainty := 1/10
    covariance := eye01
    shadow_points := shFAR
    path_history := [((10:ℚ), 10, 9), ((10:ℚ), 10, 9)]
    collision_risk := 0
    rerouting := false
    start_position := ((10:ℚ), 10, 9)
    rerouting_count := 0
    original_goal := ((0:ℚ), 0, 0)
    rerouting_steps := 0 }

theorem cexB_mid : midDrone nrmL1 genCex spaceCex 0 0 51 cexB0 = cexBmid := by
  norm_num [midDrone, stageMoved, moveDrone, updateShadow,
    DroneState.update_position, cexB0, mkDrone, cexBmid, nrmL1, clipV, genCex,
    spaceCex, shFAR, Prod.mk_sub_mk, Prod.mk_add_mk, Prod.smul_mk,
    smul_eq_mul, Prod.ext_iff]

theorem risksAgainst_FAR_DEF : risksAgainst nrmL1 shFAR [shDEF] = some [0] := by
  simp only [risksAgainst, safe_distance, risk_FAR_DEF]

theorem maxRisk_FAR_DEF : maxRisk nrmL1 shFAR [shDEF] = some 0 := by
  rw [maxRisk, risksAgainst_FAR_DEF]
  rfl

/-- Drone B's full update on the counterexample tick: its fresh shadow is
far from A's, risk 0, no entry check fires. -/
theorem cexB_update : updateDrone nrmL1 genCex rotId spaceCex 0 cexB0 [shDEF] 0 51 =
    some (riskedDrone cexBmid 0, 52) := by
  unfold updateDrone
  dsimp only
  rw [cexB_mid]
  rw [show maxRisk nrmL1 cexBmid.shadow_points [shDEF] = some 0 from
    by rw [show cexBmid.shadow_points = shFAR from rfl]; exact maxRisk_FAR_DEF]
  dsimp only
  rw [if_neg (fun h => absurd h.1 (by norm_num [collision_threshold]))]

/-- One step of the tick loop, given the drone's update result. -/
theorem updateGridGo_cons (nrm : Nrm) (gen : Gen) (rotA : Rot)
    (space_size : Vec3) (dt : ℚ) (εs : ℕ → ℚ) (i : ℕ) (is : List ℕ)
    (cur : List DroneState) (seed : ℕ) (d' : DroneState) (s' : ℕ)
    (h : updateDrone nrm gen rotA space_size dt (cur.getD i dummyDrone)
      ((cur.take i ++ cur.drop (i + 1)).map (·.shadow_points)) (εs i) seed = some (d', s')) :
    updateGridGo nrm gen rotA space_size dt εs (i :: is) cur seed =
      updateGridGo nrm gen rotA space_size dt εs is (cur.set i d') s' := by
  rw [updateGridGo, h]

/-- The full counterexample tick: A enters `Rerouting` aimed at its own
original goal, B stays `Nominal`. -/
theorem cex_tick : updateGrid nrmL1 genCex rotId spaceCex 0 [cexA0, cexB0]
    (fun _ => (0:ℚ)) 2 =
    some ([cexAfin.start_rerouting ((10:ℚ), 10, 10), riskedDrone cexBmid 0], 52) := by
  have hA : updateDrone nrmL1 genCex rotId spaceCex 0
      (([cexA0, cexB0] : List DroneState).getD 0 dummyDrone)
      ((([cexA0, cexB0] : List DroneState).take 0 ++
        ([cexA0, cexB0] : List DroneState).drop (0 + 1)).map (·.shadow_points))
      ((fun _ => (0:ℚ)) 0) 2 =
      some (cexAfin.start_rerouting ((10:ℚ), 10, 10), 51) := cexA_update
  have hB : updateDrone nrmL1 genCex rotId spaceCex 0
      (([cexAfin.start_rerouting ((10:ℚ), 10, 10), cexB0] : List DroneState).getD 1 dummyDrone)
      ((([cexAfin.start_rerouting ((10:ℚ), 10, 10), cexB0] : List DroneState).take 1 ++
        ([cexAfin.start_rerouting ((10:ℚ), 10, 10), cexB0] : List DroneState).drop (1 + 1)).map (·.shadow_points))
      ((fun _ => (0:ℚ)) 1) 51 =
      some (riskedDrone cexBmid 0, 52) := cexB_update
  unfold updateGrid
  rw [show List.range ([cexA0, cexB0] : List DroneState).length = [0, 1] from rfl]
  rw [updateGridGo_cons nrmL1 genCex rotId spaceCex 0 (fun _ => (0:ℚ)) 0 [1]
    [cexA0, cexB0] 2 (cexAfin.start_rerouting ((10:ℚ), 10, 10)) 51 hA]
  rw [show ([cexA0, cexB0] : List DroneState).set 0
    (cexAfin.start_rerouting ((10:ℚ), 10, 10)) =
    [cexAfin.start_rerouting ((10:ℚ), 10, 10), cexB0] from rfl]
  rw [updateGridGo_cons nrmL1 genCex rotId spaceCex 0 (fun _ => (0:ℚ)) 1 []
    [cexAfin.start_rerouting ((10:ℚ), 10, 10), cexB0] 51 (riskedDrone cexBmid 0) 52 hB]
  rw [show ([cexAfin.start_rerouting ((10:ℚ), 10, 10), cexB0] : List DroneState).set 1
    (riskedDrone cexBmid 0) =
    [cexAfin.start_rerouting ((10:ℚ), 10, 10), riskedDrone cexBmid 0] from rfl]
  rfl

/-- The grid state at the tick boundary after the counterexample tick. -/
def c6FinalState : List DroneState × ℕ :=
  ([cexAfin.start_rerouting ((10:ℚ), 10, 10), riskedDrone cexBmid 0], 52)

/-- C6 counterexample: a state reachable at a tick boundary in which drone A
is `Rerouting` while its goal equals its original goal — the candidate
`position + 5 * rotated_direction` coincides with the original goal for a
drone heading straight up, and nothing in `start_rerouting` prevents
adopting it. -/
theorem state_machine_goal_aliasing_counterexample :
    Reachable nrmL1 genCex rotId spaceCex c6FinalState ∧
    (c6FinalState.1.getD 0 dummyDrone).rerouting = true ∧
    (c6FinalState.1.getD 0 dummyDrone).goal =
      (c6FinalState.1.getD 0 dummyDrone).original_goal := by
  refine ⟨?_, rfl, rfl⟩
  refine Reachable.tick (initGrid genCex c6Pairs) c6FinalState 0 (fun _ => 0)
    (Reachable.start c6Pairs) ?_
  rw [cex_initGrid]
  exact cex_tick

/-- Witness for C4 at the counterexample tick: drone A enters `Nominal`,
leaves `Rerouting`, and its lifetime reroute counter increments. -/
theorem nominal_entry_behavior_witness :
    (cexAfin.start_rerouting ((10:ℚ), 10, 10)).rerouting_count =
      cexA0.rerouting_count + 1 := by
  obtain ⟨risk, -, -, hentry, -, -⟩ := nominal_entry_behavior nrmL1 genCex rotId
    spaceCex 0 cexA0 [shB0] 0 2 (cexAfin.start_rerouting ((10:ℚ), 10, 10)) 51
    rfl cexA_update
  exact (hentry rfl).1

/-- A rerouting drone used to witness C5: far from its original goal, step
counter 3, stored risk 1 (inside the hysteresis band), steering target at
its own position so the movement step idles. -/
def cexC : DroneState :=
  { position := ((10:ℚ), 10, 9)
    velocity := ((0:ℚ), 0, 0)
    goal := ((10:ℚ), 10, 9)
    uncertainty := 1/10
    covariance := eye01
    shadow_points := shB0
    path_history := [((10:ℚ), 10, 9)]
    collision_risk := 1
    rerouting := true
    start_position := ((10:ℚ), 10, 9)
    rerouting_count := 1
    original_goal := ((0:ℚ), 0, 0)
    rerouting_steps := 3 }

/-- `cexC` after its stage: step counter advanced to 4 (no exit), shadow
from draw 60 (far away). -/
def cexCmid : DroneState :=
  { cexC with rerouting_steps := 4, shadow_points := shFAR }

theorem cexC_mid : midDrone nrmL1 genCex spaceCex 0 0 60 cexC = cexCmid := by
  norm_num [midDrone, stageMoved, moveDrone, advanceRerouting,
    DroneState.stop_rerouting, updateShadow, DroneState.update_position,
    cexC, cexCmid, nrmL1, genCex, spaceCex, shFAR, collision_threshold,
    rerouting_timeout, Prod.mk_sub_mk, Prod.ext_iff]

theorem cexC_update : updateDrone nrmL1 genCex rotId spaceCex 0 cexC [shDEF] 0 60 =
    some (riskedDrone cexCmid 0, 61) := by
  unfold updateDrone
  dsimp only
  rw [cexC_mid]
  rw [show maxRisk nrmL1 cexCmid.shadow_points [shDEF] = some 0 from
    by rw [show cexCmid.shadow_points = shFAR from rfl]; exact maxRisk_FAR_DEF]
  dsimp only
  rw [if_neg (fun h => absurd h.1 (by norm_num [collision_threshold]))]

/-- Witness for C5 at a concrete rerouting drone whose exit condition does
not fire: it stays rerouting with the counter incremented. -/
theorem rerouting_exit_behavior_witness :
    (riskedDrone cexCmid 0).rerouting = true ∧
    (riskedDrone cexCmid 0).rerouting_steps = cexC.rerouting_steps + 1 ∧
    (riskedDrone cexCmid 0).rerouting_count = cexC.rerouting_count ∧
    (riskedDrone cexCmid 0).goal = cexC.goal :=
  (rerouting_exit_behavior nrmL1 genCex rotId spaceCex 0 cexC [shDEF] 0 60
      (riskedDrone cexCmid 0) 61 rfl
      (by norm_num [cexC, nrmL1, Prod.mk_sub_mk]) cexC_update).1
    (by norm_num [exitCond, cexC, rerouting_timeout, collision_threshold])

/-- C8 (amended): after `_find_alternative_path` returns, every field of
the searching drone except the shadow equals its pre-call value (goal
restored, risk and state-machine fields untouched), and the shadow is
either untouched (no trial ran) or a fresh regeneration for the restored
goal — not necessarily the pre-call sample list.  Other drones are only
read: the embedding passes their shadows immutably, mirroring that the
source writes only to `drone`. -/
theorem search_read_only_frame (nrm : Nrm) (gen : Gen) (rotA : Rot)
    (space_size : Vec3) (d : DroneState) (others : List Shadow) (seed : ℕ)
    (alt : Option Vec3) (d' : DroneState) (s' : ℕ)
    (h : findAlternativePath nrm gen rotA space_size d others seed = some (alt, d', s')) :
    agreesExceptShadow d' d ∧
      (d'.shadow_points = d.shadow_points ∨
        ∃ s0, d'.shadow_points = gen s0 d.position d.velocity d.goal d.covariance) :=
  findAlternativePath_frame nrm gen rotA space_size d others seed alt d' s' h

/-- Witness for C8 (amended) at the counterexample search: the goal and the
stored risk of the searching drone are restored. -/
theorem search_read_only_frame_witness :
    cexAfin.goal = (riskedDrone cexAmid (3/4)).goal ∧
    cexAfin.collision_risk = (riskedDrone cexAmid (3/4)).collision_risk := by
  obtain ⟨⟨-, -, h3, -, -, -, h7, -, -, -, -, -⟩, -⟩ :=
    search_read_only_frame nrmL1 genCex rotId spaceCex
      (riskedDrone cexAmid (3/4)) [shB0] 3 (some ((10:ℚ), 10, 10)) cexAfin 51
      cexA_find
  exact ⟨h3, h7⟩

/-- A sampler whose draws are all distinct (sample at `(s, 0, 0)`). -/
def genStep : Gen := fun s _ _ _ _ => [(((s : ℚ), 0, 0), 1)]

/-- A far-away shadow: every trial risk against it is 0. -/
def shW : Shadow := [(((1000:ℚ), 0, 0), 1)]

/-- A drone about to search: heading along the x-axis, stored risk 1. -/
def dW : DroneState :=
  { position := ((0:ℚ), 0, 0)
    velocity := ((0:ℚ), 0, 0)
    goal := ((5:ℚ), 0, 0)
    uncertainty := 1/10
    covariance := eye01
    shadow_points := [(((0:ℚ), 0, 0), 1)]
    path_history := [((0:ℚ), 0, 0)]
    collision_risk := 1
    rerouting := false
    start_position := ((0:ℚ), 0, 0)
    rerouting_count := 0
    original_goal := ((5:ℚ), 0, 0)
    rerouting_steps := 0 }

def cexTailW : List Vec3 := [((5:ℚ), 0, 0), ((5:ℚ), 0, 0), ((5:ℚ), 0, 0), ((5:ℚ), 0, 0), ((5:ℚ), 0, 0), ((5:ℚ), 0, 0), ((5:ℚ), 0, 0), ((10:ℚ), 0, 0), ((10:ℚ), 0, 0), ((10:ℚ), 0, 0), ((10:ℚ), 0, 0), ((10:ℚ), 0, 0), ((10:ℚ), 0, 0), ((10:ℚ), 0, 0), ((10:ℚ), 0, 0), ((15:ℚ), 0, 0), ((15:ℚ), 0, 0), ((15:ℚ), 0, 0), ((15:ℚ), 0, 0), ((15:ℚ), 0, 0), ((15:ℚ), 0, 0), ((15:ℚ), 0, 0), ((15:ℚ), 0, 0)]

theorem cexW_cands :
    candidateList rotId ((0:ℚ), 0, 0) ((1:ℚ), 0, 0) spaceCex =
      ((5:ℚ), 0, 0) :: cexTailW := by
  have hr8 : List.range 8 = [0, 1, 2, 3, 4, 5, 6, 7] := rfl
  norm_num [candidateList, rotId, hr8, clipV, spaceCex, cexTailW,
    Prod.mk_add_mk, Prod.smul_mk, smul_eq_mul, Prod.ext_iff]

/-- `dW` as the search leaves it: the final restore draw is number 47, so
the shadow sample moved from `(0,0,0)` to `(47,0,0)`. -/
def dWfin : DroneState := { dW with shadow_points := [(((47:ℚ), 0, 0), 1)] }

set_option maxHeartbeats 1000000 in
theorem cexW_find : findAlternativePath nrmL1 genStep rotId spaceCex dW [shW] 0 =
    some (some ((5:ℚ), 0, 0), dWfin, 48) := by
  have hdisteq : nrmL1 (dW.original_goal - dW.position) = 5 := by
    norm_num [dW, nrmL1, Prod.mk_sub_mk]
  have hueq : ((1:ℚ) / 5) • (dW.original_goal - dW.position) = ((1:ℚ), 0, 0) := by
    norm_num [dW, Prod.mk_sub_mk, Prod.smul_mk, smul_eq_mul, Prod.ext_iff]
  have hcand : candidateList rotId dW.position ((1:ℚ), 0, 0) spaceCex =
      ((5:ℚ), 0, 0) :: cexTailW := by
    rw [show dW.position = ((0:ℚ), 0, 0) from rfl]
    exact cexW_cands
  have h1 : maxRisk nrmL1 (genStep 0 dW.position dW.velocity
      ((5:ℚ), 0, 0) dW.covariance) [shW] = some 0 := by
    rw [show genStep 0 dW.position dW.velocity ((5:ℚ), 0, 0) dW.covariance =
      [(((0:ℚ), 0, 0), 1)] from by norm_num [genStep, Prod.ext_iff]]
    rw [maxRisk, show risksAgainst nrmL1 [(((0:ℚ), 0, 0), 1)] [shW] = some [0] from by
      norm_num [risksAgainst, safe_distance, calculate_collision_risk, riskLoop,
        dstOf, nrmL1, shW, List.filter]]
    rfl
  have hokW : ∀ o ∈ [shW], o ≠ [] := by
    intro o ho
    rw [List.mem_singleton.mp ho]
    exact fun h => List.noConfusion h
  have htaillen : cexTailW.length = 23 := rfl
  have hsl : searchLoop nrmL1 genStep [shW]
      (candidateList rotId dW.position ((1:ℚ), 0, 0) spaceCex)
      none none dW 0 = some (some ((5:ℚ), 0, 0), some 0, dWfin, 48) := by
    rw [hcand]
    rw [searchLoop_cons nrmL1 genStep [shW] ((5:ℚ), 0, 0) cexTailW none none dW 0 0 h1]
    rw [show (ltInf (0:ℚ) none : Bool) = true from rfl]
    rw [if_pos rfl, if_pos rfl]
    rw [searchLoop_stuck nrmL1 genStep [shW] (List.cons_ne_nil _ _) hokW cexTailW
      (some ((5:ℚ), 0, 0))
      { dW with shadow_points := genStep (0 + 1) dW.position dW.velocity dW.goal dW.covariance }
      (0 + 2)]
    rw [htaillen]
    unfold loopedDrone
    rw [if_neg (show cexTailW ≠ [] by rw [cexTailW]; exact List.cons_ne_nil _ _)]
    rw [htaillen]
    refine congrArg some (congrArg (Prod.mk (some ((5:ℚ), 0, 0)))
      (congrArg (Prod.mk (some 0)) ?_))
    refine congrArg (fun z => Prod.mk z (48 : ℕ)) ?_
    rw [show (0 + 2 + 2 * 23 - 1 : ℕ) = 47 from rfl]
    rw [show genStep 47 dW.position dW.velocity dW.goal dW.covariance =
      [(((47:ℚ), 0, 0), 1)] from by norm_num [genStep, Prod.ext_iff]]
    rfl
  have hchoose : chooseAlt (some 0) dW.collision_risk (some ((5:ℚ), 0, 0)) =
      some ((5:ℚ), 0, 0) := by
    unfold chooseAlt
    rw [show dW.collision_risk = 1 from rfl]
    norm_num
  rw [findAlternativePath_pos nrmL1 genStep rotId spaceCex dW [shW] 0 5 hdisteq
    (by norm_num) ((1:ℚ), 0, 0) hueq (some ((5:ℚ), 0, 0)) (some 0) dWfin 48 hsl,
    hchoose]

/-- C8 counterexample: after the search returns, the shadow is a fresh draw
for the restored goal, not the pre-call sample list — the source regenerates
(`_update_shadow`, a fresh `np.random` draw), it does not restore. -/
theorem search_shadow_not_restored_counterexample :
    findAlternativePath nrmL1 genStep rotId spaceCex dW [shW] 0 =
      some (some ((5:ℚ), 0, 0), dWfin, 48) ∧
    dWfin.shadow_points ≠ dW.shadow_points :=
  ⟨cexW_find, by norm_num [dWfin, dW, Prod.ext_iff]⟩

/-! ## Metrics (`metrics.py`, `SimulationMetrics.create_from_state`, lines 36-41)

The per-drone completion percentage is computed against the drone's
*current* `goal` field — both the baseline distance (`goal - start_position`)
and the remaining distance (`goal - position`) use `drone.goal`, not
`original_goal`. -/

/-- The per-drone completion percentage exactly as metrics.py computes it. -/
def completion_percentage (nrm : Nrm) (d : DroneState) : ℚ :=
  let total_distance := nrm (d.goal - d.start_position)
  let current_distance := nrm (d.goal - d.position)
  if total_distance > 0 then min (100 * (1 - current_distance / total_distance)) 100
  else 100

/-- The completion percentage as the spec words it: progress measured
against the immutable `original_goal`.  Stated only for comparison with
`completion_percentage`; the source uses the current `goal`. -/
def completionSpecClaim (nrm : Nrm) (d : DroneState) : ℚ :=
  let total_distance := nrm (d.original_goal - d.start_position)
  let current_distance := nrm (d.original_goal - d.position)
  if total_distance > 0 then min (100 * (1 - current_distance / total_distance)) 100
  else 100

/-- A rerouting drone halfway to its original goal whose temporary goal
lies beyond it. -/
def cexM : DroneState :=
  { position := ((5:ℚ), 0, 0)
    velocity := ((0:ℚ), 0, 0)
    goal := ((20:ℚ), 0, 0)
    uncertainty := 1/10
    covariance := eye01
    shadow_points := []
    path_history := [((0:ℚ), 0, 0)]
    collision_risk := 0
    rerouting := true
    start_position := ((0:ℚ), 0, 0)
    rerouting_count := 1
    original_goal := ((10:ℚ), 0, 0)
    rerouting_steps := 1 }

/-- C9 counterexample: while rerouting, the reported completion percentage
(25, against the temporary goal at distance 20) differs from the spec's
original-goal formula (50). -/
theorem completion_percentage_counterexample :
    completion_percentage nrmL1 cexM ≠ completionSpecClaim nrmL1 cexM := by
  norm_num [completion_percentage, completionSpecClaim, cexM, nrmL1,
    Prod.mk_sub_mk]

/-- C9 (amended): the reported completion percentage is measured against the
drone's current goal; it never exceeds 100, agrees with the spec's
original-goal formula whenever the drone is not rerouted (`goal =
original_goal`), and is exactly 100 when the baseline distance from start to
the current goal is not positive. -/
theorem completion_percentage_amended (nrm : Nrm) (d : DroneState) :
    completion_percentage nrm d ≤ 100 ∧
    (d.goal = d.original_goal →
      completion_percentage nrm d = completionSpecClaim nrm d) ∧
    (¬ nrm (d.goal - d.start_position) > 0 → completion_percentage nrm d = 100) := by
  refine ⟨?_, ?_, ?_⟩
  · unfold completion_percentage
    dsimp only
    by_cases h : nrm (d.goal - d.start_position) > 0
    · rw [if_pos h]
      exact min_le_right _ _
    · rw [if_neg h]
  · intro h
    unfold completion_percentage completionSpecClaim
    rw [h]
  · intro h
    unfold completion_percentage
    dsimp only
    rw [if_neg h]

/-- Witness for C9 (amended) at a non-rerouted drone. -/
theorem completion_percentage_amended_witness :
    completion_percentage nrmL1 cexA0 = completionSpecClaim nrmL1 cexA0 :=
  (completion_percentage_amended nrmL1 cexA0).2.1 rfl

end PSPS
